import Mathlib

/-!
Shallow embedding of `module_utils/configuration.py` (FTDAnsible):
`BaseConfigurationResource` with its CRUD handlers, parameter validation,
check-mode gate, two-level operation-spec cache, request dispatcher and the
pageable-resource iterator.

Python dictionaries are modelled as insertion-ordered association lists
(`assocSet` replaces in place, new keys are appended, mirroring CPython dict
semantics).  Python values are the inductive `Value`.  Exceptions become the
`Err` sum carried in `Except`.  The mutable instance state
(`config_changed`, the two spec caches, `_check_mode`) is threaded
explicitly as `ResourceState`, the caller-visible mutation of the `params`
dictionary is threaded as `Params`, and every request handed to the
transport collaborator `conn.send_request` is logged in an explicit request
list.  Generator loops recurse on an explicit fuel argument; running out of
fuel yields the marker `Err.fuel`, which models only the cut-off of the
embedding, not a Python behaviour.
-/

namespace FTD

/-- HTTP methods.  Modelled from the spec: the `HTTPMethod` constants come
from `module_utils/common.py`, which is not under `src/`. -/
inductive HTTPMethod where
  | GET
  | POST
  | PUT
  | DELETE
deriving DecidableEq

/-- Python values, as far as the embedded code inspects them. -/
inductive Value where
  | vNone : Value
  | vBool : Bool → Value
  | vInt : Int → Value
  | vStr : String → Value
  | vList : List Value → Value
  | vObj : List (String × Value) → Value

/-- A Python dict with string keys: an insertion-ordered association list. -/
abbrev Obj := List (String × Value)

mutual

/-- Python `==` on values. -/
def Value.beq : Value → Value → Bool
  | .vNone, .vNone => true
  | .vBool a, .vBool b => a == b
  | .vInt a, .vInt b => a == b
  | .vStr a, .vStr b => a == b
  | .vList a, .vList b => Value.beqList a b
  | .vObj a, .vObj b => Value.beqObj a b
  | _, _ => false

/-- Python `==` on lists of values. -/
def Value.beqList : List Value → List Value → Bool
  | [], [] => true
  | x :: xs, y :: ys => Value.beq x y && Value.beqList xs ys
  | _, _ => false

/-- Python `==` on string-keyed dict entries, in order. -/
def Value.beqObj : List (String × Value) → List (String × Value) → Bool
  | [], [] => true
  | (k, x) :: xs, (l, y) :: ys => k == l && Value.beq x y && Value.beqObj xs ys
  | _, _ => false

end

instance : BEq Value := ⟨Value.beq⟩

/-- Lookup of a key in an association list (first match). -/
def assocGet {α : Type} : List (String × α) → String → Option α
  | [], _ => none
  | (k, v) :: rest, key => if k = key then some v else assocGet rest key

/-- Python dict assignment `d[key] = v`: replaces the value in place when the
key is present, appends the pair otherwise. -/
def assocSet {α : Type} : List (String × α) → String → α → List (String × α)
  | [], key, v => [(key, v)]
  | (k, w) :: rest, key, v =>
      if k = key then (key, v) :: rest else (k, w) :: assocSet rest key v

/-- Python `d.setdefault(key, v)`: inserts only when the key is absent. -/
def assocSetdefault {α : Type} (l : List (String × α)) (key : String) (v : α) :
    List (String × α) :=
  match assocGet l key with
  | some _ => l
  | none => l ++ [(key, v)]

/-- Python truthiness of a value (`if not existing_object`). -/
def pyTruthy : Value → Bool
  | .vNone => false
  | .vBool b => b
  | .vInt n => n != 0
  | .vStr s => s != ""
  | .vList l => not l.isEmpty
  | .vObj l => not l.isEmpty

/-- Python `int(v)` on the values the code feeds it; `none` models the
`ValueError`/`TypeError` that `int` raises on anything else. -/
def pyInt : Value → Option Int
  | .vInt n => some n
  | .vBool b => some (if b then 1 else 0)
  | .vStr s => s.toInt?
  | _ => none

/-- Python `'%s' % v` for the scalar values that appear in filters; container
values would be rendered by `repr`, which no claim inspects, so they map to a
fixed placeholder here. -/
def pyStr : Value → String
  | .vNone => "None"
  | .vBool b => if b then "True" else "False"
  | .vInt n => toString n
  | .vStr s => s
  | .vList _ => "<list>"
  | .vObj _ => "<dict>"

/-- Does the character list start with the given pattern? -/
def chars_start_with : List Char → List Char → Bool
  | _, [] => true
  | [], _ :: _ => false
  | c :: cs, d :: ds => c == d && chars_start_with cs ds

/-- Substring occurrence on character lists. -/
def chars_contain : List Char → List Char → Bool
  | [], needle => needle.isEmpty
  | c :: cs, needle => chars_start_with (c :: cs) needle || chars_contain cs needle

/-- Python `needle in haystack` on strings. -/
def strContains (haystack needle : String) : Bool :=
  chars_contain haystack.data needle.data

/-- `str.startswith(pat)`, decided over the character lists. -/
def str_starts_with (s pat : String) : Bool :=
  chars_start_with s.data pat.data

/-- `str.endswith(pat)`, decided over the character lists. -/
def str_ends_with (s pat : String) : Bool :=
  chars_start_with s.data.reverse pat.data.reverse

/-- Operation metadata.  Modelled from the spec: the `OperationField` keys
(`url`, `method`, `modelName`) are declared in
`module_utils/fdm_swagger_client.py`, which is not under `src/`; the spec
describes an OperationSpec as url template + HTTP method + owning model. -/
structure OpSpec where
  url : String
  method : HTTPMethod
  model_name : String
deriving DecidableEq

/-- One request handed to the transport collaborator `send_request`. -/
structure Request where
  url_path : String
  http_method : HTTPMethod
  body_params : Option Obj
  path_params : Option Obj
  query_params : Option Obj

/-- The envelope the transport collaborator returns.  Modelled from the spec:
the `ResponseParams` keys come from `module_utils/common.py` (not under
`src/`); the spec describes it as success flag + status code + body. -/
structure ResponseEnvelope where
  success : Bool
  response : Value
  status_code : Nat

/-- Outcome of one external validator call: a returned
`(is_valid, validation_report)` pair, or a raised exception whose `str` is
recorded. -/
inductive VResult where
  | ret (is_valid : Bool) (report : String)
  | raises (msg : String)

/-- The exceptions the embedded code raises.  `server` is `FtdServerError`,
`config` is `FtdConfigurationError` (with its optional second argument),
`validation` is `ValidationError`, `checkMode` is `CheckModeException`,
`py` models a raw Python `TypeError`/`KeyError`/`ValueError`, and `fuel`
marks fuel exhaustion of the embedding only. -/
inductive Err where
  | server (response : Value) (code : Nat)
  | config (msg : String) (existing : Option Value)
  | validation (report : List (String × String))
  | checkMode
  | invalidOp (operation_name : String)
  | py (msg : String)
  | fuel

/-- The caller-supplied `params` dictionary, restricted to the four keys the
code reads (`data`, `query_params`, `path_params`, `filters`); `none` means
the key is absent. -/
structure Params where
  data : Option Obj
  query_params : Option Obj
  path_params : Option Obj
  filters : Option Obj

/-- The mutable state of a `BaseConfigurationResource` instance. -/
structure ResourceState where
  config_changed : Bool
  operation_spec_cache : List (String × Option OpSpec)
  models_operations_specs_cache : List (String × List (String × OpSpec))
  check_mode : Bool

/-- The transport/metadata collaborator (`self._conn`), as a deterministic
function table. -/
structure Conn where
  get_operation_spec : String → Option OpSpec
  get_operation_specs_by_model_name : String → List (String × OpSpec)
  send_request : Request → ResponseEnvelope
  validate_query_params : String → Obj → VResult
  validate_path_params : String → Obj → VResult
  validate_data : String → Obj → VResult

/-- The environment of the module: the connection plus the two imported
helpers that live outside `src/`.  `equal_objects` is modelled from the
spec as an opaque deep-equality predicate (`module_utils/common.py` is not
under `src/`); `err_str` is modelled from the spec as the rendering
`str(FtdServerError(response, code))` used by the duplicate-name and
invalid-UUID message checks. -/
structure Env where
  conn : Conn
  equal_objects : Value → Value → Bool
  err_str : Value → Nat → String

def DEFAULT_PAGE_SIZE : Int := 10

def DEFAULT_OFFSET : Int := 0

def UNPROCESSABLE_ENTITY_STATUS : Nat := 422

def INVALID_UUID_ERROR_MESSAGE : String := "Validation failed due to an invalid UUID"

def DUPLICATE_NAME_ERROR_MESSAGE : String := "Validation failed due to a duplicate name"

/-- `BaseConfigurationResource.__init__(conn, check_mode)`. -/
def initResource (check_mode : Bool) : ResourceState :=
  { config_changed := false
    operation_spec_cache := []
    models_operations_specs_cache := []
    check_mode := check_mode }

/-- `BaseConfigurationResource.get_operation_spec`: name-level cache with
fill-on-miss; the cached value may be `none` (the collaborator knows no such
operation). -/
def get_operation_spec (env : Env) (operation_name : String) (st : ResourceState) :
    Option OpSpec × ResourceState :=
  match assocGet st.operation_spec_cache operation_name with
  | some cached => (cached, st)
  | none =>
      let fetched := env.conn.get_operation_spec operation_name
      let cache1 := assocSet st.operation_spec_cache operation_name fetched
      let st1 := { st with operation_spec_cache := cache1 }
      (fetched, st1)

/-- The body of the backfill loop in `get_operation_specs_by_model_name`:
`self._operation_spec_cache.setdefault(op_name, op_spec)` for one returned
pair. -/
def backfill_step (s : ResourceState) (nv : String × OpSpec) : ResourceState :=
  { s with operation_spec_cache := assocSetdefault s.operation_spec_cache nv.1 (some nv.2) }

/-- `BaseConfigurationResource.get_operation_specs_by_model_name`: model-level
cache with fill-on-miss; a miss stores the batch and backfills each returned
spec into the name-level cache via `setdefault` (no overwrite). -/
def get_operation_specs_by_model_name (env : Env) (model_name : String)
    (st : ResourceState) : List (String × OpSpec) × ResourceState :=
  match assocGet st.models_operations_specs_cache model_name with
  | some cached => (cached, st)
  | none =>
      let model_op_specs := env.conn.get_operation_specs_by_model_name model_name
      let mcache1 := assocSet st.models_operations_specs_cache model_name model_op_specs
      let st1 := { st with models_operations_specs_cache := mcache1 }
      let st2 := model_op_specs.foldl backfill_step st1
      (model_op_specs, st2)

/-- `BaseConfigurationResource.is_find_all_operation`.  A cached `none` spec
makes the Python `operation_spec[OperationField.METHOD]` raise `TypeError`. -/
def is_find_all_operation (env : Env) (operation_name : String)
    (st : ResourceState) : Except Err Bool × ResourceState :=
  match get_operation_spec env operation_name st with
  | (none, st1) => (.error (.py "TypeError: NoneType is not subscriptable"), st1)
  | (some operation_spec, st1) =>
      let is_get_list_operation :=
        str_starts_with operation_name "get" && str_ends_with operation_name "List"
      let is_get_method := operation_spec.method == HTTPMethod.GET
      (.ok (is_get_list_operation && is_get_method), st1)

/-- The lazy `next(...)` scan inside `_get_find_all_operation_name`: walk the
operation names in order until `is_find_all_operation` answers true. -/
def find_first_find_all (env : Env) : List String → ResourceState →
    Except Err (Option String) × ResourceState
  | [], st => (.ok none, st)
  | op_name :: rest, st =>
      match is_find_all_operation env op_name st with
      | (.error e, st1) => (.error e, st1)
      | (.ok true, st1) => (.ok (some op_name), st1)
      | (.ok false, st1) => find_first_find_all env rest st1

/-- `BaseConfigurationResource._get_find_all_operation_name`. -/
def _get_find_all_operation_name (env : Env) (model_name : String)
    (st : ResourceState) : Except Err (Option String) × ResourceState :=
  match get_operation_specs_by_model_name env model_name st with
  | (operations, st1) =>
      if operations.isEmpty then (.ok none, st1)
      else find_first_find_all env (operations.map Prod.fst) st1

/-- `_get_user_params(params)`: the three per-category dictionaries, absent
categories defaulting to empty dicts. -/
def _get_user_params (p : Params) : Obj × Obj × Obj :=
  (p.data.getD [], p.query_params.getD [], p.path_params.getD [])

/-- `BaseConfigurationResource.stop_if_check_mode`. -/
def stop_if_check_mode (st : ResourceState) : Except Err Unit :=
  if st.check_mode then Except.error Err.checkMode else Except.ok ()

/-- The body of the `validate` closure in `validate_params`: record a failed
or throwing validator call under the fixed per-category label. -/
def record_validation (report : List (String × String)) (key : String)
    (r : VResult) : List (String × String) :=
  match r with
  | .ret true _ => report
  | .ret false validation_report => assocSet report key validation_report
  | .raises msg => assocSet report key msg

/-- `BaseConfigurationResource.validate_params`: the spec is fetched first,
`query_params` and `path_params` are always validated, `data` only for a
POST or PUT operation; a missing spec raises `TypeError` at the
`is_post_request` check (after the first two validator calls); a non-empty
aggregate report raises `ValidationError`. -/
def validate_params (env : Env) (operation_name : String) (p : Params)
    (st : ResourceState) : Except Err Unit × ResourceState :=
  match get_operation_spec env operation_name st with
  | (op_spec?, st1) =>
      match _get_user_params p with
      | (data, query_params, path_params) =>
          let report : List (String × String) := []
          let report := record_validation report "Invalid query_params provided"
            (env.conn.validate_query_params operation_name query_params)
          let report := record_validation report "Invalid path_params provided"
            (env.conn.validate_path_params operation_name path_params)
          match op_spec? with
          | none => (.error (.py "TypeError: NoneType is not subscriptable"), st1)
          | some op_spec =>
              let report :=
                if op_spec.method == HTTPMethod.POST
                    || op_spec.method == HTTPMethod.PUT then
                  record_validation report "Invalid data provided"
                    (env.conn.validate_data operation_name data)
                else report
              if report.isEmpty then (.ok (), st1)
              else (.error (.validation report), st1)

/-- `BaseConfigurationResource._send_request`: build the request, hand it to
the transport, raise `FtdServerError` on a non-success envelope (state
untouched), otherwise flip `config_changed` for non-GET methods and return
the response body.  The single request issued is logged. -/
def _send_request (env : Env) (url_path : String) (http_method : HTTPMethod)
    (body_params path_params query_params : Option Obj) (st : ResourceState) :
    Except Err Value × ResourceState × List Request :=
  let req : Request :=
    { url_path := url_path
      http_method := http_method
      body_params := body_params
      path_params := path_params
      query_params := query_params }
  let response := env.conn.send_request req
  if response.success then
    let st1 := if http_method == HTTPMethod.GET then st
      else { st with config_changed := true }
    (.ok response.response, st1, [req])
  else
    (.error (.server response.response response.status_code), st, [req])

/-- `result['items']` on a page returned by the resource function: `none`
models the `KeyError`/`TypeError` Python raises when the body is not a dict
carrying a list under `items`. -/
def result_items (result : Value) : Option (List Value) :=
  match result with
  | .vObj fields =>
      match assocGet fields "items" with
      | some (.vList l) => some l
      | _ => none
  | _ => none

/-- The offset advance at the bottom of the pagination loop:
`query_params['offset'] = int(query_params['offset']) + int(query_params['limit'])`
on a fresh copy of the dictionary; `none` models the exception `int` would
raise on a non-numeric value. -/
def advance_offset (query_params : Obj) : Option Obj :=
  match assocGet query_params "offset", assocGet query_params "limit" with
  | some o, some l =>
      match pyInt o, pyInt l with
      | some off, some lim => some (assocSet query_params "offset" (.vInt (off + lim)))
      | _, _ => none
  | _, _ => none

/-- The fetch/yield loop of `iterate_over_pageable_resource`, recorded as the
trace of (query params used, items returned) pairs, one per fetch; the loop
stops with the first fetch whose item list is empty (that fetch is the last
trace entry).  `none` models either a malformed page, a non-numeric
offset/limit, or fuel exhaustion of the embedding. -/
def iterate_pages (resource_func : Obj → Value) :
    Nat → Obj → Option (List (Obj × List Value))
  | 0, _ => none
  | fuel + 1, query_params =>
      let result := resource_func query_params
      match result_items result with
      | none => none
      | some items =>
          if items.isEmpty then some [(query_params, items)]
          else
            match advance_offset query_params with
            | none => none
            | some next_params =>
                match iterate_pages resource_func fuel next_params with
                | none => none
                | some rest => some ((query_params, items) :: rest)

/-- `iterate_over_pageable_resource(resource_func, query_params)`: copy the
supplied query parameters, default `limit` to 10 and `offset` to 0 when
absent, then run the fetch/yield loop. -/
def iterate_over_pageable_resource (resource_func : Obj → Value)
    (query_params : Option Obj) (fuel : Nat) : Option (List (Obj × List Value)) :=
  let qp := query_params.getD []
  let qp := assocSetdefault qp "limit" (.vInt DEFAULT_PAGE_SIZE)
  let qp := assocSetdefault qp "offset" (.vInt DEFAULT_OFFSET)
  iterate_pages resource_func fuel qp

/-- The items the generator yields, in order: the concatenation of the item
lists of the fetched pages. -/
def yielded_items (trace : List (Obj × List Value)) : List Value :=
  (trace.map Prod.snd).flatten

/-- The `transform_filters_to_query_param` closure:
`';'.join('key:value')` over the filter dict in order. -/
def transform_filters_to_query_param (filter_params : Obj) : String :=
  String.intercalate ";" (filter_params.map (fun kv => kv.1 ++ ":" ++ pyStr kv.2))

/-- The `match_filters` closure: `viewitems(filter_params) <= viewitems(obj)`,
every filter pair present in the item with an equal value.  The embedded form
assumes the item is a dict; Python raises on any other item, which no claim
exercises. -/
def match_filters (filter_params : Obj) (obj : Value) : Bool :=
  match obj with
  | .vObj fields =>
      filter_params.all (fun kv => (assocGet fields kv.1).any (fun v => v.beq kv.2))
  | _ => false

/-- Result of `get_objects_by_filter`: a single optional item when
`get_one_item` is true, the filtered item list otherwise. -/
inductive FindResult where
  | one (item : Option Value)
  | many (items : List Value)

/-- The consumption of the pageable-resource generator by
`next((i for i in item_generator if match_filters(filters, i)), None)`:
pages are fetched through the stateful `_send_request`; the scan stops at
the first matching item (no further page is fetched), at the first empty
page, or on a raised error.  This inlines `iterate_over_pageable_resource`
because its `resource_func` is the stateful dispatcher here. -/
def fetch_first_match (env : Env) (url : String) (method : HTTPMethod)
    (path_params : Obj) (filters : Obj) :
    Nat → Obj → ResourceState →
    Except Err (Option Value) × ResourceState × List Request
  | 0, _, st => (.error .fuel, st, [])
  | fuel + 1, query_params, st =>
      match _send_request env url method none (some path_params) (some query_params) st with
      | (.error e, st1, reqs) => (.error e, st1, reqs)
      | (.ok result, st1, reqs) =>
          match result_items result with
          | none => (.error (.py "KeyError: items"), st1, reqs)
          | some items =>
              if items.isEmpty then (.ok none, st1, reqs)
              else
                match items.find? (fun i => match_filters filters i) with
                | some i => (.ok (some i), st1, reqs)
                | none =>
                    match advance_offset query_params with
                    | none => (.error (.py "ValueError: invalid int"), st1, reqs)
                    | some next_params =>
                        match fetch_first_match env url method path_params filters fuel next_params st1 with
                        | (r, st2, reqs2) => (r, st2, reqs ++ reqs2)

/-- The consumption of the pageable-resource generator by the list
comprehension `[i for i in item_generator if match_filters(filters, i)]`:
every page is fetched until the first empty one, and the matching items are
collected in order. -/
def fetch_all_matches (env : Env) (url : String) (method : HTTPMethod)
    (path_params : Obj) (filters : Obj) :
    Nat → Obj → ResourceState →
    Except Err (List Value) × ResourceState × List Request
  | 0, _, st => (.error .fuel, st, [])
  | fuel + 1, query_params, st =>
      match _send_request env url method none (some path_params) (some query_params) st with
      | (.error e, st1, reqs) => (.error e, st1, reqs)
      | (.ok result, st1, reqs) =>
          match result_items result with
          | none => (.error (.py "KeyError: items"), st1, reqs)
          | some items =>
              if items.isEmpty then (.ok [], st1, reqs)
              else
                match advance_offset query_params with
                | none => (.error (.py "ValueError: invalid int"), st1, reqs)
                | some next_params =>
                    match fetch_all_matches env url method path_params filters fuel next_params st1 with
                    | (.error e, st2, reqs2) => (.error e, st2, reqs ++ reqs2)
                    | (.ok rest, st2, reqs2) =>
                        (.ok (items.filter (fun i => match_filters filters i) ++ rest), st2, reqs ++ reqs2)

/-- `BaseConfigurationResource.get_objects_by_filter`: validate, check-mode
gate, serialize a non-empty filter dict into the `filters` query parameter
(mutating the caller-supplied `query_params` dict when one was passed), then
consume the pageable resource in single-item or list mode with the `limit`
and `offset` defaults applied to a copy of the query parameters. -/
def get_objects_by_filter (env : Env) (operation_name : String) (p : Params)
    (get_one_item : Bool) (fuel : Nat) (st : ResourceState) :
    Except Err FindResult × ResourceState × Params × List Request :=
  match validate_params env operation_name p st with
  | (.error e, st1) => (.error e, st1, p, [])
  | (.ok _, st1) =>
      match stop_if_check_mode st1 with
      | .error e => (.error e, st1, p, [])
      | .ok _ =>
          match _get_user_params p with
          | (_, query_params, path_params) =>
              match get_operation_spec env operation_name st1 with
              | (none, st2) => (.error (.py "TypeError: NoneType is not subscriptable"), st2, p, [])
              | (some op_spec, st2) =>
                  let filters := p.filters.getD []
                  let query_params :=
                    if filters.isEmpty then query_params
                    else assocSet query_params "filters" (.vStr (transform_filters_to_query_param filters))
                  let p1 := if p.query_params.isSome then { p with query_params := some query_params } else p
                  let qp := assocSetdefault query_params "limit" (.vInt DEFAULT_PAGE_SIZE)
                  let qp := assocSetdefault qp "offset" (.vInt DEFAULT_OFFSET)
                  if get_one_item then
                    match fetch_first_match env op_spec.url op_spec.method path_params filters fuel qp st2 with
                    | (.error e, st3, reqs) => (.error e, st3, p1, reqs)
                    | (.ok item, st3, reqs) => (.ok (.one item), st3, p1, reqs)
                  else
                    match fetch_all_matches env op_spec.url op_spec.method path_params filters fuel qp st2 with
                    | (.error e, st3, reqs) => (.error e, st3, p1, reqs)
                    | (.ok items, st3, reqs) => (.ok (.many items), st3, p1, reqs)

/-- The `is_duplicate_name_error` closure of `add_object`. -/
def is_duplicate_name_error (env : Env) (response : Value) (code : Nat) : Bool :=
  code == UNPROCESSABLE_ENTITY_STATUS
    && strContains (env.err_str response code) DUPLICATE_NAME_ERROR_MESSAGE

/-- The `is_invalid_uuid_error` closure of `delete_object`. -/
def is_invalid_uuid_error (env : Env) (response : Value) (code : Nat) : Bool :=
  code == UNPROCESSABLE_ENTITY_STATUS
    && strContains (env.err_str response code) INVALID_UUID_ERROR_MESSAGE

/-- `BaseConfigurationResource._check_if_the_same_object`, reached when the
create request failed with a duplicate-name error `e = (response, code)`:
look up the model FindAll operation; when one exists, default the missing
`filters` key of the caller params to the submitted name (a mutation of the
caller dict), fetch the first matching existing object, return it if it is
`equal_objects`-equal to the submitted data, raise `FtdConfigurationError`
with it otherwise; re-raise the original error when there is no FindAll
operation or no match.  `get_one_item=True` always yields `FindResult.one`,
so the `.many` case is unreachable. -/
def _check_if_the_same_object (env : Env) (op_spec : OpSpec) (p : Params)
    (e_response : Value) (e_code : Nat) (fuel : Nat) (st : ResourceState) :
    Except Err Value × ResourceState × Params × List Request :=
  match _get_find_all_operation_name env op_spec.model_name st with
  | (.error err, st1) => (.error err, st1, p, [])
  | (.ok none, st1) => (.error (.server e_response e_code), st1, p, [])
  | (.ok (some find_operation), st1) =>
      match p.data with
      | none => (.error (.py "KeyError: data"), st1, p, [])
      | some data =>
          let p1? : Option Params :=
            if p.filters.isNone then
              match assocGet data "name" with
              | none => none
              | some name_value => some { p with filters := some [("name", name_value)] }
            else some p
          match p1? with
          | none => (.error (.py "KeyError: name"), st1, p, [])
          | some p1 =>
              match get_objects_by_filter env find_operation p1 true fuel st1 with
              | (.error err, st2, p2, reqs) => (.error err, st2, p2, reqs)
              | (.ok (.many _), st2, p2, reqs) => (.error (.py "unreachable"), st2, p2, reqs)
              | (.ok (.one none), st2, p2, reqs) => (.error (.server e_response e_code), st2, p2, reqs)
              | (.ok (.one (some existing_obj)), st2, p2, reqs) =>
                  if env.equal_objects existing_obj (.vObj data) then
                    (.ok existing_obj, st2, p2, reqs)
                  else
                    (.error (.config "Cannot add new object. An object with the same name but different parameters already exists." (some existing_obj)), st2, p2, reqs)

/-- `BaseConfigurationResource.add_object`: validate, check-mode gate, send
the create request with body, path and query parameters; on an
`FtdServerError` that is a 422 duplicate-name error run the reconciliation,
any other failure propagates unchanged. -/
def add_object (env : Env) (operation_name : String) (p : Params) (fuel : Nat)
    (st : ResourceState) :
    Except Err Value × ResourceState × Params × List Request :=
  match validate_params env operation_name p st with
  | (.error e, st1) => (.error e, st1, p, [])
  | (.ok _, st1) =>
      match stop_if_check_mode st1 with
      | .error e => (.error e, st1, p, [])
      | .ok _ =>
          match _get_user_params p with
          | (data, query_params, path_params) =>
              match get_operation_spec env operation_name st1 with
              | (none, st2) => (.error (.py "TypeError: NoneType is not subscriptable"), st2, p, [])
              | (some op_spec, st2) =>
                  match _send_request env op_spec.url op_spec.method (some data) (some path_params) (some query_params) st2 with
                  | (.ok result, st3, reqs) => (.ok result, st3, p, reqs)
                  | (.error (.server resp code), st3, reqs) =>
                      if is_duplicate_name_error env resp code then
                        match _check_if_the_same_object env op_spec p resp code fuel st3 with
                        | (r, st4, p2, reqs2) => (r, st4, p2, reqs ++ reqs2)
                      else (.error (.server resp code), st3, p, reqs)
                  | (.error e, st3, reqs) => (.error e, st3, p, reqs)

/-- `BaseConfigurationResource.delete_object`: validate, check-mode gate,
send the delete request carrying only url, method and path parameters; a 422
invalid-UUID `FtdServerError` is swallowed into a synthetic status dict, any
other failure propagates unchanged. -/
def delete_object (env : Env) (operation_name : String) (p : Params)
    (st : ResourceState) :
    Except Err Value × ResourceState × Params × List Request :=
  match validate_params env operation_name p st with
  | (.error e, st1) => (.error e, st1, p, [])
  | (.ok _, st1) =>
      match stop_if_check_mode st1 with
      | .error e => (.error e, st1, p, [])
      | .ok _ =>
          match _get_user_params p with
          | (_, _, path_params) =>
              match get_operation_spec env operation_name st1 with
              | (none, st2) => (.error (.py "TypeError: NoneType is not subscriptable"), st2, p, [])
              | (some op_spec, st2) =>
                  match _send_request env op_spec.url op_spec.method none (some path_params) none st2 with
                  | (.ok result, st3, reqs) => (.ok result, st3, p, reqs)
                  | (.error (.server resp code), st3, reqs) =>
                      if is_invalid_uuid_error env resp code then
                        (.ok (.vObj [("status", .vStr "Referenced object does not exist")]), st3, p, reqs)
                      else (.error (.server resp code), st3, p, reqs)
                  | (.error e, st3, reqs) => (.error e, st3, p, reqs)

/-- `BaseConfigurationResource.edit_object`: validate, check-mode gate, fetch
the current object with a GET at the same url and path parameters; an empty
(falsy) fetch raises `FtdConfigurationError`, an `equal_objects`-equal fetch
is returned without a write, otherwise the edit request is sent with body,
path and query parameters. -/
def edit_object (env : Env) (operation_name : String) (p : Params)
    (st : ResourceState) :
    Except Err Value × ResourceState × Params × List Request :=
  match validate_params env operation_name p st with
  | (.error e, st1) => (.error e, st1, p, [])
  | (.ok _, st1) =>
      match stop_if_check_mode st1 with
      | .error e => (.error e, st1, p, [])
      | .ok _ =>
          match _get_user_params p with
          | (data, query_params, path_params) =>
              match get_operation_spec env operation_name st1 with
              | (none, st2) => (.error (.py "TypeError: NoneType is not subscriptable"), st2, p, [])
              | (some op_spec, st2) =>
                  match _send_request env op_spec.url HTTPMethod.GET none (some path_params) none st2 with
                  | (.error e, st3, reqs) => (.error e, st3, p, reqs)
                  | (.ok existing_object, st3, reqs) =>
                      if !pyTruthy existing_object then
                        (.error (.config "Referenced object does not exist" none), st3, p, reqs)
                      else if env.equal_objects existing_object (.vObj data) then
                        (.ok existing_object, st3, p, reqs)
                      else
                        match _send_request env op_spec.url op_spec.method (some data) (some path_params) (some query_params) st3 with
                        | (r, st4, reqs2) => (r, st4, p, reqs ++ reqs2)

/-- `BaseConfigurationResource.send_general_request`: validate, check-mode
gate, send the request with body, path and query parameters. -/
def send_general_request (env : Env) (operation_name : String) (p : Params)
    (st : ResourceState) :
    Except Err Value × ResourceState × Params × List Request :=
  match validate_params env operation_name p st with
  | (.error e, st1) => (.error e, st1, p, [])
  | (.ok _, st1) =>
      match stop_if_check_mode st1 with
      | .error e => (.error e, st1, p, [])
      | .ok _ =>
          match _get_user_params p with
          | (data, query_params, path_params) =>
              match get_operation_spec env operation_name st1 with
              | (none, st2) => (.error (.py "TypeError: NoneType is not subscriptable"), st2, p, [])
              | (some op_spec, st2) =>
                  match _send_request env op_spec.url op_spec.method (some data) (some path_params) (some query_params) st2 with
                  | (r, st3, reqs) => (r, st3, p, reqs)

/-- One entry of the aggregate validation report: nothing for a passing
validator, the returned report for a failing one, the exception text for a
throwing one, under the fixed per-category label. -/
def validation_entry (key : String) (r : VResult) : List (String × String) :=
  match r with
  | .ret true _ => []
  | .ret false validation_report => [(key, validation_report)]
  | .raises msg => [(key, msg)]

/-- The aggregate report the spec describes for one call: `query_params` and
`path_params` always validated, `data` only for a POST or PUT operation,
each failure recorded under its category label.  Stated from the spec words
to compare against `validate_params`. -/
def expected_validation_report (env : Env) (operation_name : String)
    (p : Params) (op_spec : OpSpec) : List (String × String) :=
  validation_entry "Invalid query_params provided"
      (env.conn.validate_query_params operation_name (p.query_params.getD []))
    ++ validation_entry "Invalid path_params provided"
      (env.conn.validate_path_params operation_name (p.path_params.getD []))
    ++ (if op_spec.method == HTTPMethod.POST || op_spec.method == HTTPMethod.PUT then
          validation_entry "Invalid data provided"
            (env.conn.validate_data operation_name (p.data.getD []))
        else [])

/-- One metadata lookup, for stating the cache invariant over arbitrary call
sequences. -/
inductive SpecQuery where
  | byName (operation_name : String)
  | byModel (model_name : String)

/-- Run a sequence of `get_operation_spec` / `get_operation_specs_by_model_name`
calls, keeping only the state. -/
def run_spec_queries (env : Env) : List SpecQuery → ResourceState → ResourceState
  | [], st => st
  | .byName n :: rest, st =>
      run_spec_queries env rest (get_operation_spec env n st).2
  | .byModel m :: rest, st =>
      run_spec_queries env rest (get_operation_specs_by_model_name env m st).2

/-- The two-level cache invariant of the spec: every spec stored in the
model-level cache under some model is also stored (as a present, non-absent
entry) in the name-level cache under its operation name. -/
def model_cache_backfilled (st : ResourceState) : Prop :=
  ∀ m specs, assocGet st.models_operations_specs_cache m = some specs →
    ∀ n sp, (n, sp) ∈ specs →
      assocGet st.operation_spec_cache n = some (some sp)

/-- Auxiliary strengthening for the cache invariant: every cached entry (at
either level) is exactly what the collaborator returns, and every operation
name occurring in a cached batch is present in the name-level cache. -/
def cache_agrees (env : Env) (st : ResourceState) : Prop :=
  (∀ n v, assocGet st.operation_spec_cache n = some v →
      v = env.conn.get_operation_spec n)
  ∧ (∀ m l, assocGet st.models_operations_specs_cache m = some l →
      l = env.conn.get_operation_specs_by_model_name m
      ∧ ∀ n sp, (n, sp) ∈ l → (assocGet st.operation_spec_cache n).isSome = true)

/-- The metadata collaborator answers consistently whether an operation is
looked up by name or through its model batch (both views come from the same
parsed Swagger specification). -/
def conn_consistent (env : Env) : Prop :=
  ∀ m n sp, (n, sp) ∈ env.conn.get_operation_specs_by_model_name m →
    env.conn.get_operation_spec n = some sp

/-- Concrete server for the pagination scenario: 25 items served in pages of
10, 10 and 5 at offsets 0, 10 and 20, an empty page anywhere else. -/
def c3_server_items (offset : Int) : List Value :=
  if offset = 0 then (List.range 10).map (fun i => .vInt i)
  else if offset = 10 then (List.range 10).map (fun i => .vInt (10 + i))
  else if offset = 20 then (List.range 5).map (fun i => .vInt (20 + i))
  else []

/-- The resource function of the pagination scenario. -/
def c3_fetch (query_params : Obj) : Value :=
  match assocGet query_params "offset" with
  | some (.vInt o) => .vObj [("items", .vList (c3_server_items o))]
  | _ => .vObj [("items", .vList [])]

/-- The expected four-fetch trace of the pagination scenario. -/
def c3_trace : List (Obj × List Value) :=
  [ ([("limit", .vInt 10), ("offset", .vInt 0)], (List.range 10).map (fun i => .vInt i)),
    ([("limit", .vInt 10), ("offset", .vInt 10)], (List.range 10).map (fun i => .vInt (10 + i))),
    ([("limit", .vInt 10), ("offset", .vInt 20)], (List.range 5).map (fun i => .vInt (20 + i))),
    ([("limit", .vInt 10), ("offset", .vInt 30)], []) ]

/-- Concrete operation specs for the witness scenarios. -/
def objectSpecAdd : OpSpec := { url := "/object", method := .POST, model_name := "NetworkObject" }

def objectSpecList : OpSpec := { url := "/object", method := .GET, model_name := "NetworkObject" }

def objectSpecEdit : OpSpec := { url := "/object/id1", method := .PUT, model_name := "NetworkObject" }

def objectSpecDel : OpSpec := { url := "/object/id1", method := .DELETE, model_name := "NetworkObject" }

/-- The object already present on the concrete server. -/
def existingNetObject : Value := .vObj [("name", .vStr "x"), ("value", .vInt 1)]

/-- Concrete collaborator: create collides with a duplicate name, delete hits
an invalid UUID, the list endpoint serves one page with the existing object,
the item endpoint returns it, edits succeed, all validators pass. -/
def connW : Conn :=
  { get_operation_spec := fun n =>
      if n = "addNetworkObject" then some objectSpecAdd
      else if n = "getNetworkObjectList" then some objectSpecList
      else if n = "editNetworkObject" then some objectSpecEdit
      else if n = "deleteNetworkObject" then some objectSpecDel
      else none
    get_operation_specs_by_model_name := fun m =>
      if m = "NetworkObject" then [("getNetworkObjectList", objectSpecList)] else []
    send_request := fun req =>
      match req.http_method with
      | .POST => { success := false, response := .vStr DUPLICATE_NAME_ERROR_MESSAGE, status_code := 422 }
      | .DELETE => { success := false, response := .vStr INVALID_UUID_ERROR_MESSAGE, status_code := 422 }
      | .PUT => { success := true, response := .vStr "updated", status_code := 200 }
      | .GET =>
          if req.url_path = "/object" then
            { success := true, response := .vObj [("items", .vList [existingNetObject])], status_code := 200 }
          else { success := true, response := existingNetObject, status_code := 200 }
    validate_query_params := fun _ _ => .ret true ""
    validate_path_params := fun _ _ => .ret true ""
    validate_data := fun _ _ => .ret true "" }

/-- Concrete environment: structural deep equality, error text rendered from
the response body. -/
def envW : Env :=
  { conn := connW
    equal_objects := fun a b => a.beq b
    err_str := fun response _ => pyStr response }

/-- Variant collaborator whose validators fail or throw. -/
def connV : Conn :=
  { connW with
      validate_query_params := fun _ _ => .ret false "bad query"
      validate_path_params := fun _ _ => .raises "path validator crashed"
      validate_data := fun _ _ => .ret false "bad data" }

/-- Environment with the failing validators. -/
def envV : Env := { envW with conn := connV }

/-- Caller params for the add scenario: submitted data only. -/
def paramsAddW : Params :=
  { data := some [("name", .vStr "x"), ("value", .vInt 1)]
    query_params := none
    path_params := none
    filters := none }

/-- Caller params for the edit scenario. -/
def paramsEditW : Params :=
  { data := some [("name", .vStr "x"), ("value", .vInt 1)]
    query_params := none
    path_params := some [("objId", .vStr "id1")]
    filters := none }

/-- Caller params for the delete scenario, carrying a body and query params
that the handler must drop. -/
def paramsDeleteW : Params :=
  { data := some [("ignored", .vInt 7)]
    query_params := some [("alsoIgnored", .vInt 8)]
    path_params := some [("objId", .vStr "id1")]
    filters := none }

/-- Caller params for the find scenario. -/
def paramsFindW : Params :=
  { data := none
    query_params := none
    path_params := none
    filters := some [("name", .vStr "x")] }

/-- The create request `add_object` dispatches: url and method from the
operation spec, body, path and query parameters from the caller params
(absent categories defaulting to empty dicts). -/
def create_request (sp : OpSpec) (p : Params) : Request :=
  { url_path := sp.url
    http_method := sp.method
    body_params := some (p.data.getD [])
    path_params := some (p.path_params.getD [])
    query_params := some (p.query_params.getD []) }

/-- The probe request `edit_object` sends first: a GET at the same url and
path parameters, with no body and no query parameters. -/
def edit_fetch_request (sp : OpSpec) (p : Params) : Request :=
  { url_path := sp.url
    http_method := HTTPMethod.GET
    body_params := none
    path_params := some (p.path_params.getD [])
    query_params := none }

/-- The request `delete_object` dispatches: url, method and path parameters
only — no body and no query parameters. -/
def delete_request (sp : OpSpec) (p : Params) : Request :=
  { url_path := sp.url
    http_method := sp.method
    body_params := none
    path_params := some (p.path_params.getD [])
    query_params := none }


/-! ### Association-list lemmas -/

theorem assocGet_assocSet_self {α : Type} (l : List (String × α)) (k : String) (v : α) :
    assocGet (assocSet l k v) k = some v := by
  induction l with
  | nil => simp [assocSet, assocGet]
  | cons hd tl ih =>
      obtain ⟨k2, w⟩ := hd
      by_cases h : k2 = k
      · simp [assocSet, assocGet, h]
      · simp [assocSet, assocGet, h, ih]

theorem assocGet_assocSet_ne {α : Type} (l : List (String × α)) (k k2 : String) (v : α)
    (h : k ≠ k2) : assocGet (assocSet l k v) k2 = assocGet l k2 := by
  induction l with
  | nil => simp [assocSet, assocGet, h]
  | cons hd tl ih =>
      obtain ⟨k3, w⟩ := hd
      by_cases h3 : k3 = k
      · subst h3
        simp [assocSet, assocGet, h]
      · simp [assocSet, assocGet, h3, ih]

theorem assocGet_append {α : Type} (l1 l2 : List (String × α)) (k : String) :
    assocGet (l1 ++ l2) k =
      match assocGet l1 k with
      | some v => some v
      | none => assocGet l2 k := by
  induction l1 with
  | nil => simp [assocGet]
  | cons hd tl ih =>
      obtain ⟨k2, w⟩ := hd
      by_cases h : k2 = k <;> simp [assocGet, h, ih]

theorem assocSet_eq_append {α : Type} (l : List (String × α)) (k : String) (v : α)
    (h : assocGet l k = none) : assocSet l k v = l ++ [(k, v)] := by
  induction l with
  | nil => simp [assocSet]
  | cons hd tl ih =>
      obtain ⟨k2, w⟩ := hd
      by_cases h2 : k2 = k
      · simp [assocGet, h2] at h
      · simp [assocGet, h2] at h
        simp [assocSet, h2, ih h]

theorem isSome_assocGet_assocSet {α : Type} (l : List (String × α)) (k k2 : String) (v : α)
    (h : (assocGet l k2).isSome = true) :
    (assocGet (assocSet l k v) k2).isSome = true := by
  by_cases hk : k = k2
  · subst hk
    simp [assocGet_assocSet_self]
  · rw [assocGet_assocSet_ne l k k2 v hk]
    exact h

theorem isSome_assocGet_assocSetdefault_self {α : Type} (l : List (String × α)) (k : String)
    (v : α) : (assocGet (assocSetdefault l k v) k).isSome = true := by
  unfold assocSetdefault
  cases h : assocGet l k with
  | some w => simp [h]
  | none => simp [assocGet_append, h, assocGet]

theorem assocGet_assocSetdefault_mono {α : Type} (l : List (String × α)) (k k2 : String)
    (v : α) (h : (assocGet l k2).isSome = true) :
    assocGet (assocSetdefault l k v) k2 = assocGet l k2 := by
  unfold assocSetdefault
  cases hk : assocGet l k with
  | some w => rfl
  | none =>
      cases h2 : assocGet l k2 with
      | some w2 => simp [assocGet_append, h2]
      | none => simp [h2] at h

theorem assocGet_assocSetdefault_cases {α : Type} (l : List (String × α)) (k k2 : String)
    (v : α) :
    assocGet (assocSetdefault l k v) k2 = assocGet l k2
    ∨ (k2 = k ∧ assocGet l k = none ∧ assocGet (assocSetdefault l k v) k2 = some v) := by
  unfold assocSetdefault
  cases hk : assocGet l k with
  | some w => left; rfl
  | none =>
      by_cases hkk : k2 = k
      · subst hkk
        right
        refine ⟨rfl, rfl, ?_⟩
        simp [assocGet_append, hk, assocGet]
      · left
        cases h2 : assocGet l k2 with
        | some w2 => simp [assocGet_append, h2]
        | none =>
            simp only [assocGet_append, h2, assocGet]
            rw [if_neg (Ne.symm hkk)]

/-! ### State-projection lemmas: the cache operations never touch
`check_mode` or `config_changed`, and the model fetch never touches the
model-independent parts it should not. -/

theorem backfill_foldl_check_mode (specs : List (String × OpSpec)) (st : ResourceState) :
    (specs.foldl backfill_step st).check_mode = st.check_mode := by
  induction specs generalizing st with
  | nil => rfl
  | cons hd tl ih => simp [List.foldl_cons, ih, backfill_step]

theorem backfill_foldl_config_changed (specs : List (String × OpSpec)) (st : ResourceState) :
    (specs.foldl backfill_step st).config_changed = st.config_changed := by
  induction specs generalizing st with
  | nil => rfl
  | cons hd tl ih => simp [List.foldl_cons, ih, backfill_step]

theorem backfill_foldl_models (specs : List (String × OpSpec)) (st : ResourceState) :
    (specs.foldl backfill_step st).models_operations_specs_cache
      = st.models_operations_specs_cache := by
  induction specs generalizing st with
  | nil => rfl
  | cons hd tl ih => simp [List.foldl_cons, ih, backfill_step]

theorem get_operation_spec_check_mode (env : Env) (n : String) (st : ResourceState) :
    ((get_operation_spec env n st).2).check_mode = st.check_mode := by
  unfold get_operation_spec
  cases assocGet st.operation_spec_cache n <;> rfl

theorem get_operation_spec_config_changed (env : Env) (n : String) (st : ResourceState) :
    ((get_operation_spec env n st).2).config_changed = st.config_changed := by
  unfold get_operation_spec
  cases assocGet st.operation_spec_cache n <;> rfl

theorem get_operation_spec_models (env : Env) (n : String) (st : ResourceState) :
    ((get_operation_spec env n st).2).models_operations_specs_cache
      = st.models_operations_specs_cache := by
  unfold get_operation_spec
  cases assocGet st.operation_spec_cache n <;> rfl

theorem get_specs_by_model_check_mode (env : Env) (m : String) (st : ResourceState) :
    ((get_operation_specs_by_model_name env m st).2).check_mode = st.check_mode := by
  unfold get_operation_specs_by_model_name
  cases assocGet st.models_operations_specs_cache m with
  | some l => rfl
  | none => simp [backfill_foldl_check_mode]

theorem get_specs_by_model_config_changed (env : Env) (m : String) (st : ResourceState) :
    ((get_operation_specs_by_model_name env m st).2).config_changed = st.config_changed := by
  unfold get_operation_specs_by_model_name
  cases assocGet st.models_operations_specs_cache m with
  | some l => rfl
  | none => simp [backfill_foldl_config_changed]

theorem validate_params_state (env : Env) (op : String) (p : Params) (st : ResourceState) :
    (validate_params env op p st).2 = (get_operation_spec env op st).2 := by
  unfold validate_params
  rcases h : get_operation_spec env op st with ⟨spec?, st1⟩
  cases spec? with
  | none => simp
  | some sp =>
      dsimp only
      split <;> split <;> rfl

theorem validate_params_check_mode (env : Env) (op : String) (p : Params)
    (st : ResourceState) :
    ((validate_params env op p st).2).check_mode = st.check_mode := by
  rw [validate_params_state]
  exact get_operation_spec_check_mode env op st

theorem validate_params_config_changed (env : Env) (op : String) (p : Params)
    (st : ResourceState) :
    ((validate_params env op p st).2).config_changed = st.config_changed := by
  rw [validate_params_state]
  exact get_operation_spec_config_changed env op st


/-! ### `config_changed` monotonicity helpers -/

theorem _send_request_mono (env : Env) (u : String) (m : HTTPMethod) (b pp qp : Option Obj)
    (st : ResourceState) (h : st.config_changed = true) :
    ((_send_request env u m b pp qp st).2.1).config_changed = true := by
  unfold _send_request
  dsimp only
  split
  · split
    · exact h
    · rfl
  · exact h

theorem _send_request_mono_eq {env : Env} {u : String} {m : HTTPMethod}
    {b pp qp : Option Obj} {st : ResourceState} {r : Except Err Value}
    {st2 : ResourceState} {reqs : List Request}
    (heq : _send_request env u m b pp qp st = (r, st2, reqs))
    (h : st.config_changed = true) : st2.config_changed = true := by
  have h2 := _send_request_mono env u m b pp qp st h
  rw [heq] at h2
  exact h2

theorem is_find_all_operation_config (env : Env) (n : String) (st : ResourceState) :
    ((is_find_all_operation env n st).2).config_changed = st.config_changed := by
  have h2 := get_operation_spec_config_changed env n st
  unfold is_find_all_operation
  rcases h : get_operation_spec env n st with ⟨spec?, st1⟩
  rw [h] at h2
  cases spec? <;> simpa using h2

theorem find_first_find_all_config (env : Env) (names : List String) (st : ResourceState) :
    ((find_first_find_all env names st).2).config_changed = st.config_changed := by
  induction names generalizing st with
  | nil => rfl
  | cons n rest ih =>
      have h2 := is_find_all_operation_config env n st
      unfold find_first_find_all
      rcases h : is_find_all_operation env n st with ⟨r, st1⟩
      rw [h] at h2
      cases r with
      | error e => simpa using h2
      | ok b =>
          cases b
          · simpa [ih st1] using h2
          · simpa using h2

theorem _get_find_all_config (env : Env) (m : String) (st : ResourceState) :
    ((_get_find_all_operation_name env m st).2).config_changed = st.config_changed := by
  have h2 := get_specs_by_model_config_changed env m st
  unfold _get_find_all_operation_name
  rcases h : get_operation_specs_by_model_name env m st with ⟨operations, st1⟩
  rw [h] at h2
  by_cases he : operations.isEmpty
  · simpa [he] using h2
  · simpa [he, find_first_find_all_config] using h2

theorem fetch_first_match_mono (env : Env) (u : String) (m : HTTPMethod) (pp f : Obj) :
    ∀ (fuel : Nat) (qp : Obj) (st : ResourceState), st.config_changed = true →
      ((fetch_first_match env u m pp f fuel qp st).2.1).config_changed = true := by
  intro fuel
  induction fuel with
  | zero => intro qp st h; exact h
  | succ n ih =>
      intro qp st h
      unfold fetch_first_match
      have h1 := _send_request_mono env u m none (some pp) (some qp) st h
      rcases hs : _send_request env u m none (some pp) (some qp) st with ⟨r, st1, reqs⟩
      rw [hs] at h1
      cases r with
      | error e => simpa using h1
      | ok result =>
          dsimp only
          cases hres : result_items result with
          | none => simpa using h1
          | some items =>
              by_cases hempty : items.isEmpty
              · simpa [hempty] using h1
              · simp only [hempty, if_false, Bool.false_eq_true]
                cases hf : items.find? (fun i => match_filters f i) with
                | some i => simpa using h1
                | none =>
                    cases hadv : advance_offset qp with
                    | none => simpa using h1
                    | some np =>
                        have h3 := ih np st1 h1
                        rcases hc : fetch_first_match env u m pp f n np st1 with ⟨r2, st2, reqs2⟩
                        rw [hc] at h3
                        dsimp only
                        rw [hc]
                        simpa using h3

theorem fetch_first_match_mono_eq {env : Env} {u : String} {m : HTTPMethod} {pp f : Obj}
    {fuel : Nat} {qp : Obj} {st : ResourceState} {r : Except Err (Option Value)}
    {st2 : ResourceState} {reqs : List Request}
    (heq : fetch_first_match env u m pp f fuel qp st = (r, st2, reqs))
    (h : st.config_changed = true) : st2.config_changed = true := by
  have h2 := fetch_first_match_mono env u m pp f fuel qp st h
  rw [heq] at h2
  exact h2

theorem fetch_all_matches_mono (env : Env) (u : String) (m : HTTPMethod) (pp f : Obj) :
    ∀ (fuel : Nat) (qp : Obj) (st : ResourceState), st.config_changed = true →
      ((fetch_all_matches env u m pp f fuel qp st).2.1).config_changed = true := by
  intro fuel
  induction fuel with
  | zero => intro qp st h; exact h
  | succ n ih =>
      intro qp st h
      unfold fetch_all_matches
      have h1 := _send_request_mono env u m none (some pp) (some qp) st h
      rcases hs : _send_request env u m none (some pp) (some qp) st with ⟨r, st1, reqs⟩
      rw [hs] at h1
      cases r with
      | error e => simpa using h1
      | ok result =>
          dsimp only
          cases hres : result_items result with
          | none => simpa using h1
          | some items =>
              by_cases hempty : items.isEmpty
              · simpa [hempty] using h1
              · simp only [hempty, if_false, Bool.false_eq_true]
                cases hadv : advance_offset qp with
                | none => simpa using h1
                | some np =>
                    have h3 := ih np st1 h1
                    rcases hc : fetch_all_matches env u m pp f n np st1 with ⟨r2, st2, reqs2⟩
                    rw [hc] at h3
                    dsimp only
                    rw [hc]
                    cases r2 <;> simpa using h3

theorem fetch_all_matches_mono_eq {env : Env} {u : String} {m : HTTPMethod} {pp f : Obj}
    {fuel : Nat} {qp : Obj} {st : ResourceState} {r : Except Err (List Value)}
    {st2 : ResourceState} {reqs : List Request}
    (heq : fetch_all_matches env u m pp f fuel qp st = (r, st2, reqs))
    (h : st.config_changed = true) : st2.config_changed = true := by
  have h2 := fetch_all_matches_mono env u m pp f fuel qp st h
  rw [heq] at h2
  exact h2

theorem get_objects_by_filter_mono (env : Env) (op : String) (p : Params) (g : Bool)
    (fuel : Nat) (st : ResourceState) (h : st.config_changed = true) :
    ((get_objects_by_filter env op p g fuel st).2.1).config_changed = true := by
  unfold get_objects_by_filter
  have h1 := validate_params_config_changed env op p st
  rcases hv : validate_params env op p st with ⟨rv, st1⟩
  rw [hv] at h1
  have h1' : st1.config_changed = true := by rw [← h]; exact h1
  cases rv with
  | error e => simpa using h1'
  | ok u =>
      dsimp only
      cases hstop : stop_if_check_mode st1 with
      | error e => simpa using h1'
      | ok u2 =>
          have h2 := get_operation_spec_config_changed env op st1
          rcases hgs : get_operation_spec env op st1 with ⟨spec?, st2⟩
          rw [hgs] at h2
          have h2' : st2.config_changed = true := by
            have : st2.config_changed = st1.config_changed := h2
            rw [this]; exact h1'
          cases spec? with
          | none => simpa using h2'
          | some op_spec =>
              dsimp only
              split
              · split
                next a b c heq => exact fetch_first_match_mono_eq heq h2'
                next a b c heq => exact fetch_first_match_mono_eq heq h2'
              · split
                next a b c heq => exact fetch_all_matches_mono_eq heq h2'
                next a b c heq => exact fetch_all_matches_mono_eq heq h2'


theorem get_objects_by_filter_mono_eq {env : Env} {op : String} {p : Params} {g : Bool}
    {fuel : Nat} {st : ResourceState} {r : Except Err FindResult} {st2 : ResourceState}
    {p2 : Params} {reqs : List Request}
    (heq : get_objects_by_filter env op p g fuel st = (r, st2, p2, reqs))
    (h : st.config_changed = true) : st2.config_changed = true := by
  have h2 := get_objects_by_filter_mono env op p g fuel st h
  rw [heq] at h2
  exact h2

theorem _check_if_the_same_object_mono (env : Env) (sp : OpSpec) (p : Params)
    (resp : Value) (code : Nat) (fuel : Nat) (st : ResourceState)
    (h : st.config_changed = true) :
    ((_check_if_the_same_object env sp p resp code fuel st).2.1).config_changed = true := by
  unfold _check_if_the_same_object
  have hg := _get_find_all_config env sp.model_name st
  rcases hf : _get_find_all_operation_name env sp.model_name st with ⟨rf, st1⟩
  rw [hf] at hg
  have h1 : st1.config_changed = true := by
    have hg' : st1.config_changed = st.config_changed := hg
    rw [hg']; exact h
  cases rf with
  | error e => simpa using h1
  | ok fo =>
      cases fo with
      | none => simpa using h1
      | some find_operation =>
          dsimp only
          cases p.data with
          | none => simpa using h1
          | some data =>
              dsimp only
              split
              · simpa using h1
              · split
                all_goals rename_i heq
                all_goals
                  first
                  | exact get_objects_by_filter_mono_eq heq h1
                  | (have h5 := get_objects_by_filter_mono_eq heq h1
                     split <;> simpa using h5)

theorem _check_if_the_same_object_mono_eq {env : Env} {sp : OpSpec} {p : Params}
    {resp : Value} {code : Nat} {fuel : Nat} {st : ResourceState} {r : Except Err Value}
    {st2 : ResourceState} {p2 : Params} {reqs : List Request}
    (heq : _check_if_the_same_object env sp p resp code fuel st = (r, st2, p2, reqs))
    (h : st.config_changed = true) : st2.config_changed = true := by
  have h2 := _check_if_the_same_object_mono env sp p resp code fuel st h
  rw [heq] at h2
  exact h2

theorem add_object_mono (env : Env) (op : String) (p : Params) (fuel : Nat)
    (st : ResourceState) (h : st.config_changed = true) :
    ((add_object env op p fuel st).2.1).config_changed = true := by
  unfold add_object
  have h0 := validate_params_config_changed env op p st
  rcases hv : validate_params env op p st with ⟨rv, st1⟩
  rw [hv] at h0
  have h1 : st1.config_changed = true := by
    have h0' : st1.config_changed = st.config_changed := h0
    rw [h0']; exact h
  cases rv with
  | error e => simpa using h1
  | ok u =>
      dsimp only
      cases hstop : stop_if_check_mode st1 with
      | error e => simpa using h1
      | ok u2 =>
          have hg := get_operation_spec_config_changed env op st1
          rcases hgs : get_operation_spec env op st1 with ⟨spec?, st2⟩
          rw [hgs] at hg
          have h2 : st2.config_changed = true := by
            have hg' : st2.config_changed = st1.config_changed := hg
            rw [hg']; exact h1
          cases spec? with
          | none => simpa using h2
          | some op_spec =>
              dsimp only
              split
              · rename_i heq
                exact _send_request_mono_eq heq h2
              · rename_i heq
                have h3 := _send_request_mono_eq heq h2
                split
                · exact _check_if_the_same_object_mono env op_spec p _ _ fuel _ h3
                · simpa using h3
              · rename_i heq
                exact _send_request_mono_eq heq h2

theorem delete_object_mono (env : Env) (op : String) (p : Params)
    (st : ResourceState) (h : st.config_changed = true) :
    ((delete_object env op p st).2.1).config_changed = true := by
  unfold delete_object
  have h0 := validate_params_config_changed env op p st
  rcases hv : validate_params env op p st with ⟨rv, st1⟩
  rw [hv] at h0
  have h1 : st1.config_changed = true := by
    have h0' : st1.config_changed = st.config_changed := h0
    rw [h0']; exact h
  cases rv with
  | error e => simpa using h1
  | ok u =>
      dsimp only
      cases hstop : stop_if_check_mode st1 with
      | error e => simpa using h1
      | ok u2 =>
          have hg := get_operation_spec_config_changed env op st1
          rcases hgs : get_operation_spec env op st1 with ⟨spec?, st2⟩
          rw [hgs] at hg
          have h2 : st2.config_changed = true := by
            have hg' : st2.config_changed = st1.config_changed := hg
            rw [hg']; exact h1
          cases spec? with
          | none => simpa using h2
          | some op_spec =>
              dsimp only
              split
              · rename_i heq
                exact _send_request_mono_eq heq h2
              · rename_i heq
                have h3 := _send_request_mono_eq heq h2
                split <;> simpa using h3
              · rename_i heq
                exact _send_request_mono_eq heq h2

theorem edit_object_mono (env : Env) (op : String) (p : Params)
    (st : ResourceState) (h : st.config_changed = true) :
    ((edit_object env op p st).2.1).config_changed = true := by
  unfold edit_object
  have h0 := validate_params_config_changed env op p st
  rcases hv : validate_params env op p st with ⟨rv, st1⟩
  rw [hv] at h0
  have h1 : st1.config_changed = true := by
    have h0' : st1.config_changed = st.config_changed := h0
    rw [h0']; exact h
  cases rv with
  | error e => simpa using h1
  | ok u =>
      dsimp only
      cases hstop : stop_if_check_mode st1 with
      | error e => simpa using h1
      | ok u2 =>
          have hg := get_operation_spec_config_changed env op st1
          rcases hgs : get_operation_spec env op st1 with ⟨spec?, st2⟩
          rw [hgs] at hg
          have h2 : st2.config_changed = true := by
            have hg' : st2.config_changed = st1.config_changed := hg
            rw [hg']; exact h1
          cases spec? with
          | none => simpa using h2
          | some op_spec =>
              dsimp only
              split
              · rename_i heq
                exact _send_request_mono_eq heq h2
              · rename_i heq
                have h3 := _send_request_mono_eq heq h2
                split
                · simpa using h3
                · split
                  · simpa using h3
                  · exact _send_request_mono env op_spec.url op_spec.method _ _ _ _ h3

theorem send_general_request_mono (env : Env) (op : String) (p : Params)
    (st : ResourceState) (h : st.config_changed = true) :
    ((send_general_request env op p st).2.1).config_changed = true := by
  unfold send_general_request
  have h0 := validate_params_config_changed env op p st
  rcases hv : validate_params env op p st with ⟨rv, st1⟩
  rw [hv] at h0
  have h1 : st1.config_changed = true := by
    have h0' : st1.config_changed = st.config_changed := h0
    rw [h0']; exact h
  cases rv with
  | error e => simpa using h1
  | ok u =>
      dsimp only
      cases hstop : stop_if_check_mode st1 with
      | error e => simpa using h1
      | ok u2 =>
          have hg := get_operation_spec_config_changed env op st1
          rcases hgs : get_operation_spec env op st1 with ⟨spec?, st2⟩
          rw [hgs] at hg
          have h2 : st2.config_changed = true := by
            have hg' : st2.config_changed = st1.config_changed := hg
            rw [hg']; exact h1
          cases spec? with
          | none => simpa using h2
          | some op_spec =>
              dsimp only
              exact _send_request_mono env op_spec.url op_spec.method _ _ _ _ h2


/-! ### Two-level cache invariant machinery (C7) -/

theorem backfill_foldl_get (specs : List (String × OpSpec)) (st : ResourceState)
    (n : String) :
    assocGet (specs.foldl backfill_step st).operation_spec_cache n
        = assocGet st.operation_spec_cache n
    ∨ ∃ sp, (n, sp) ∈ specs
        ∧ assocGet (specs.foldl backfill_step st).operation_spec_cache n
            = some (some sp) := by
  induction specs generalizing st with
  | nil => left; rfl
  | cons hd tl ih =>
      obtain ⟨k, v⟩ := hd
      rcases ih (backfill_step st (k, v)) with h | ⟨sp, hmem, hget⟩
      · rcases assocGet_assocSetdefault_cases st.operation_spec_cache k n (some v) with
          h2 | ⟨hnk, hnone, hsome⟩
        · left
          rw [List.foldl_cons, h]
          exact h2
        · right
          refine ⟨v, ?_, ?_⟩
          · subst hnk
            exact List.mem_cons_self _ _
          · rw [List.foldl_cons, h]
            exact hsome
      · right
        refine ⟨sp, List.mem_cons_of_mem _ hmem, ?_⟩
        rw [List.foldl_cons]
        exact hget

theorem backfill_foldl_mono (specs : List (String × OpSpec)) :
    ∀ (st : ResourceState) (n : String),
      (assocGet st.operation_spec_cache n).isSome = true →
      (assocGet (specs.foldl backfill_step st).operation_spec_cache n).isSome = true := by
  induction specs with
  | nil => intro st n h; exact h
  | cons hd tl ih =>
      intro st n h
      rw [List.foldl_cons]
      apply ih
      have h2 := assocGet_assocSetdefault_mono st.operation_spec_cache hd.1 n (some hd.2) h
      show (assocGet (assocSetdefault st.operation_spec_cache hd.1 (some hd.2)) n).isSome = true
      rw [h2]
      exact h

theorem backfill_foldl_present (specs : List (String × OpSpec)) :
    ∀ (st : ResourceState), ∀ q ∈ specs,
      (assocGet (specs.foldl backfill_step st).operation_spec_cache q.1).isSome = true := by
  induction specs with
  | nil => intro st q hq; cases hq
  | cons hd tl ih =>
      intro st q hq
      rw [List.foldl_cons]
      rcases List.mem_cons.mp hq with h | h
      · subst h
        apply backfill_foldl_mono
        exact isSome_assocGet_assocSetdefault_self _ _ _
      · exact ih (backfill_step st hd) q h

theorem cache_agrees_byName (env : Env) (n0 : String) (st : ResourceState)
    (h : cache_agrees env st) : cache_agrees env (get_operation_spec env n0 st).2 := by
  obtain ⟨h1, h2⟩ := h
  unfold get_operation_spec
  cases hc : assocGet st.operation_spec_cache n0 with
  | some cached => exact ⟨h1, h2⟩
  | none =>
      dsimp only
      constructor
      · intro n v hv
        by_cases hn : n0 = n
        · subst hn
          rw [assocGet_assocSet_self] at hv
          exact (Option.some.inj hv).symm
        · rw [assocGet_assocSet_ne _ _ _ _ hn] at hv
          exact h1 n v hv
      · intro m l hm
        obtain ⟨hl, hpres⟩ := h2 m l hm
        refine ⟨hl, ?_⟩
        intro n sp hmem
        exact isSome_assocGet_assocSet _ _ _ _ (hpres n sp hmem)

theorem cache_agrees_byModel (env : Env) (m0 : String) (st : ResourceState)
    (hcons : conn_consistent env) (h : cache_agrees env st) :
    cache_agrees env (get_operation_specs_by_model_name env m0 st).2 := by
  obtain ⟨h1, h2⟩ := h
  unfold get_operation_specs_by_model_name
  cases hc : assocGet st.models_operations_specs_cache m0 with
  | some cached => exact ⟨h1, h2⟩
  | none =>
      dsimp only
      constructor
      · intro n v hv
        rcases backfill_foldl_get (env.conn.get_operation_specs_by_model_name m0)
            { st with models_operations_specs_cache := assocSet st.models_operations_specs_cache m0 (env.conn.get_operation_specs_by_model_name m0) } n with
          hsame | ⟨sp, hmem, hsp⟩
        · rw [hsame] at hv
          exact h1 n v hv
        · rw [hsp] at hv
          have hvs : v = some sp := (Option.some.inj hv).symm
          rw [hvs, hcons m0 n sp hmem]
      · intro m l hm
        rw [backfill_foldl_models] at hm
        by_cases hmm : m0 = m
        · subst hmm
          rw [assocGet_assocSet_self] at hm
          have hl : l = env.conn.get_operation_specs_by_model_name m0 :=
            (Option.some.inj hm).symm
          refine ⟨hl, ?_⟩
          intro n sp hmem
          exact backfill_foldl_present _ _ (n, sp) (hl ▸ hmem)
        · rw [assocGet_assocSet_ne _ _ _ _ hmm] at hm
          obtain ⟨hl, hpres⟩ := h2 m l hm
          refine ⟨hl, ?_⟩
          intro n sp hmem
          exact backfill_foldl_mono _ _ _ (hpres n sp hmem)

theorem run_spec_queries_agrees (env : Env) (hcons : conn_consistent env) :
    ∀ (qs : List SpecQuery) (st : ResourceState), cache_agrees env st →
      cache_agrees env (run_spec_queries env qs st) := by
  intro qs
  induction qs with
  | nil => intro st h; exact h
  | cons q rest ih =>
      intro st h
      cases q with
      | byName n => exact ih _ (cache_agrees_byName env n st h)
      | byModel m => exact ih _ (cache_agrees_byModel env m st hcons h)

theorem cache_agrees_backfilled (env : Env) (hcons : conn_consistent env)
    (st : ResourceState) (h : cache_agrees env st) : model_cache_backfilled st := by
  intro m specs hm n sp hmem
  obtain ⟨hl, hpres⟩ := h.2 m specs hm
  have hconn : env.conn.get_operation_spec n = some sp := hcons m n sp (hl ▸ hmem)
  have hsome := hpres n sp hmem
  cases hv : assocGet st.operation_spec_cache n with
  | none => rw [hv] at hsome; simp at hsome
  | some v =>
      have hagree := h.1 n v hv
      rw [hagree, hconn]

theorem cache_agrees_init (env : Env) (cm : Bool) : cache_agrees env (initResource cm) := by
  constructor
  · intro n v hv
    simp [initResource, assocGet] at hv
  · intro m l hm
    simp [initResource, assocGet] at hm


/-! ### Claim theorems -/

/-- C7: after any sequence of `get_operation_spec` and
`get_operation_specs_by_model_name` calls on a fresh resource, every spec
present in the model-level cache under some model is also present in the
name-level cache under its operation name: the model-level batch fetch
backfills each returned spec via `setdefault`, never overwriting name-level
entries.  The metadata collaborator is assumed to answer by-name and
by-model lookups consistently (both views come from the same parsed Swagger
source). -/
theorem c7_two_level_cache_invariant (env : Env) (hcons : conn_consistent env)
    (qs : List SpecQuery) (cm : Bool) :
    model_cache_backfilled (run_spec_queries env qs (initResource cm)) :=
  cache_agrees_backfilled env hcons _
    (run_spec_queries_agrees env hcons qs _ (cache_agrees_init env cm))

/-- C7 witness: the invariant holds concretely after a by-name fetch followed
by a model-level fetch against the concrete collaborator. -/
theorem c7_witness :
    model_cache_backfilled
      (run_spec_queries envW
        [SpecQuery.byName "addNetworkObject", SpecQuery.byModel "NetworkObject"]
        (initResource false)) := by
  refine c7_two_level_cache_invariant envW ?_
    [SpecQuery.byName "addNetworkObject", SpecQuery.byModel "NetworkObject"] false
  intro m n sp hmem
  by_cases hm : m = "NetworkObject"
  · subst hm
    simp only [envW, connW, if_pos] at hmem
    rcases List.mem_singleton.mp hmem with h
    have hn : n = "getNetworkObjectList" := congrArg Prod.fst h
    have hsp : sp = objectSpecList := congrArg Prod.snd h
    subst hn
    subst hsp
    decide
  · simp only [envW, connW, if_neg hm] at hmem
    cases hmem

/-- C1 (amended): check-mode gating applies to every operation handler — Add,
Edit, Delete, General (regardless of HTTP method) and FindByFilter
(`get_objects_by_filter`) all abort with `CheckModeException` after
successful validation and before any network request when the resource is in
dry-run mode. -/
theorem c1_check_mode_gates_every_handler (env : Env) (op : String) (p : Params)
    (fuel : Nat) (g : Bool) (st st1 : ResourceState)
    (hcm : st.check_mode = true)
    (hv : validate_params env op p st = (.ok (), st1)) :
    add_object env op p fuel st = (.error .checkMode, st1, p, [])
    ∧ edit_object env op p st = (.error .checkMode, st1, p, [])
    ∧ delete_object env op p st = (.error .checkMode, st1, p, [])
    ∧ send_general_request env op p st = (.error .checkMode, st1, p, [])
    ∧ get_objects_by_filter env op p g fuel st = (.error .checkMode, st1, p, []) := by
  have hc1 : st1.check_mode = true := by
    have h := validate_params_check_mode env op p st
    rw [hv] at h
    have h2 : st1.check_mode = st.check_mode := h
    rw [h2, hcm]
  have hstop : stop_if_check_mode st1 = .error .checkMode := by
    unfold stop_if_check_mode
    rw [hc1]
    rfl
  refine ⟨?_, ?_, ?_, ?_, ?_⟩
  · unfold add_object
    rw [hv]
    dsimp only
    rw [hstop]
  · unfold edit_object
    rw [hv]
    dsimp only
    rw [hstop]
  · unfold delete_object
    rw [hv]
    dsimp only
    rw [hstop]
  · unfold send_general_request
    rw [hv]
    dsimp only
    rw [hstop]
  · unfold get_objects_by_filter
    rw [hv]
    dsimp only
    rw [hstop]

/-- C1 counterexample: in dry-run mode a FindByFilter call
(`get_objects_by_filter` on a `getXList` operation with non-empty filters)
aborts with `CheckModeException` after validation and sends zero requests —
so FindByFilter IS gated, refuting the claim that read-only/FindByFilter
operations are never gated and proceed to send requests in dry-run mode. -/
theorem c1_counterexample :
    get_objects_by_filter envW "getNetworkObjectList" paramsFindW false 5 (initResource true)
      = (.error .checkMode,
         { config_changed := false,
           operation_spec_cache := [("getNetworkObjectList", some objectSpecList)],
           models_operations_specs_cache := [],
           check_mode := true },
         paramsFindW, []) := by
  rfl

/-- C1 witness: a concrete dry-run Add call aborts with the check-mode
signal, no request sent. -/
theorem c1_witness :
    add_object envW "addNetworkObject" paramsAddW 5 (initResource true)
      = (.error .checkMode,
         { config_changed := false,
           operation_spec_cache := [("addNetworkObject", some objectSpecAdd)],
           models_operations_specs_cache := [],
           check_mode := true },
         paramsAddW, []) :=
  (c1_check_mode_gates_every_handler envW "addNetworkObject" paramsAddW 5 false
      (initResource true) _ rfl rfl).1

/-- C8: the `config_changed` flag starts false at construction;
`_send_request` raises `FtdServerError` carrying the response body and
status code on every non-success envelope, leaving the state untouched; on a
success envelope it returns the body and sets the flag exactly when the
method is not GET; and no operation — handler, cache fetch or validation —
ever resets the flag, so once true it stays true. -/
theorem c8_config_changed_flag :
    (∀ cm : Bool, (initResource cm).config_changed = false)
    ∧ (∀ (env : Env) (u : String) (m : HTTPMethod) (b pp qp : Option Obj)
        (st : ResourceState),
        ((env.conn.send_request ⟨u, m, b, pp, qp⟩).success = false →
          _send_request env u m b pp qp st =
            (.error (.server (env.conn.send_request ⟨u, m, b, pp, qp⟩).response
                (env.conn.send_request ⟨u, m, b, pp, qp⟩).status_code), st,
             [⟨u, m, b, pp, qp⟩]))
        ∧ ((env.conn.send_request ⟨u, m, b, pp, qp⟩).success = true →
          _send_request env u m b pp qp st =
            (.ok (env.conn.send_request ⟨u, m, b, pp, qp⟩).response,
             (if m == HTTPMethod.GET then st else { st with config_changed := true }),
             [⟨u, m, b, pp, qp⟩])))
    ∧ (∀ (env : Env) (op mdl : String) (p : Params) (st : ResourceState),
        ((get_operation_spec env op st).2).config_changed = st.config_changed
        ∧ ((get_operation_specs_by_model_name env mdl st).2).config_changed
            = st.config_changed
        ∧ ((validate_params env op p st).2).config_changed = st.config_changed)
    ∧ (∀ (env : Env) (op : String) (p : Params) (fuel : Nat) (g : Bool)
        (st : ResourceState), st.config_changed = true →
        ((add_object env op p fuel st).2.1).config_changed = true
        ∧ ((edit_object env op p st).2.1).config_changed = true
        ∧ ((delete_object env op p st).2.1).config_changed = true
        ∧ ((send_general_request env op p st).2.1).config_changed = true
        ∧ ((get_objects_by_filter env op p g fuel st).2.1).config_changed = true) := by
  refine ⟨fun cm => rfl, ?_, ?_, ?_⟩
  · intro env u m b pp qp st
    constructor
    · intro hfail
      unfold _send_request
      dsimp only
      rw [hfail]
      rfl
    · intro hok
      unfold _send_request
      dsimp only
      rw [hok]
      rfl
  · intro env op mdl p st
    exact ⟨get_operation_spec_config_changed env op st,
      get_specs_by_model_config_changed env mdl st,
      validate_params_config_changed env op p st⟩
  · intro env op p fuel g st h
    exact ⟨add_object_mono env op p fuel st h,
      edit_object_mono env op p st h,
      delete_object_mono env op p st h,
      send_general_request_mono env op p st h,
      get_objects_by_filter_mono env op p g fuel st h⟩

/-- C8 witness: on a concrete instance whose flag is already true, an add
call leaves it true. -/
theorem c8_witness :
    ((add_object envW "addNetworkObject" paramsAddW 5
        { config_changed := true, operation_spec_cache := [],
          models_operations_specs_cache := [], check_mode := false }).2.1).config_changed
      = true :=
  (c8_config_changed_flag.2.2.2 envW "addNetworkObject" paramsAddW 5 false
      { config_changed := true, operation_spec_cache := [],
        models_operations_specs_cache := [], check_mode := false } rfl).1


theorem assocGet_validation_entry_ne (key k2 : String) (r : VResult) (h : key ≠ k2) :
    assocGet (validation_entry key r) k2 = none := by
  cases r with
  | ret b rep => cases b <;> simp [validation_entry, assocGet, h]
  | raises m => simp [validation_entry, assocGet, h]

theorem record_validation_append (report : List (String × String)) (key : String)
    (r : VResult) (h : assocGet report key = none) :
    record_validation report key r = report ++ validation_entry key r := by
  cases r with
  | ret b rep =>
      cases b
      · simp [record_validation, validation_entry,
          assocSet_eq_append report key rep h]
      · simp [record_validation, validation_entry]
  | raises m =>
      simp [record_validation, validation_entry, assocSet_eq_append report key m h]

theorem record_three (vq vp vd : VResult) (mflag : Bool) :
    (if mflag then
        record_validation (record_validation (record_validation []
          "Invalid query_params provided" vq) "Invalid path_params provided" vp)
          "Invalid data provided" vd
      else
        record_validation (record_validation []
          "Invalid query_params provided" vq) "Invalid path_params provided" vp)
    = validation_entry "Invalid query_params provided" vq
        ++ validation_entry "Invalid path_params provided" vp
        ++ (if mflag then validation_entry "Invalid data provided" vd else []) := by
  have h1 : record_validation [] "Invalid query_params provided" vq
      = validation_entry "Invalid query_params provided" vq := by
    rw [record_validation_append [] "Invalid query_params provided" vq rfl,
      List.nil_append]
  have h2 : record_validation (validation_entry "Invalid query_params provided" vq)
        "Invalid path_params provided" vp
      = validation_entry "Invalid query_params provided" vq
        ++ validation_entry "Invalid path_params provided" vp :=
    record_validation_append _ _ _
      (assocGet_validation_entry_ne _ _ _ (by decide))
  have h3 : assocGet (validation_entry "Invalid query_params provided" vq
        ++ validation_entry "Invalid path_params provided" vp)
        "Invalid data provided" = none := by
    simp [assocGet_append,
      assocGet_validation_entry_ne "Invalid query_params provided"
        "Invalid data provided" vq (by decide),
      assocGet_validation_entry_ne "Invalid path_params provided"
        "Invalid data provided" vp (by decide)]
  cases mflag <;>
    simp [h1, h2, record_validation_append _ _ _ h3, List.append_assoc]

/-- C4: for every call, `query_params` and `path_params` are always
validated and `data` only when the operation method is POST or PUT; all
applicable categories are attempted even when an earlier one fails or
throws (a thrown failure is recorded under the category label); a non-empty
aggregate report raises `ValidationError` with the full report; and every
handler then returns that error with zero requests sent — also in dry-run
mode, where the result is the `ValidationError`, not the check-mode
signal. -/
theorem c4_parameter_validation (env : Env) (op : String) (p : Params)
    (st st1 : ResourceState) (op_spec : OpSpec)
    (hsp : get_operation_spec env op st = (some op_spec, st1)) :
    (validate_params env op p st =
      (if expected_validation_report env op p op_spec = []
       then (.ok (), st1)
       else (.error (.validation (expected_validation_report env op p op_spec)), st1)))
    ∧ (∀ (e : Err) (st2 : ResourceState) (fuel : Nat) (g : Bool),
        validate_params env op p st = (.error e, st2) →
        add_object env op p fuel st = (.error e, st2, p, [])
        ∧ edit_object env op p st = (.error e, st2, p, [])
        ∧ delete_object env op p st = (.error e, st2, p, [])
        ∧ send_general_request env op p st = (.error e, st2, p, [])
        ∧ get_objects_by_filter env op p g fuel st = (.error e, st2, p, [])) := by
  constructor
  · unfold validate_params
    rw [hsp]
    dsimp only [_get_user_params]
    rw [record_three (env.conn.validate_query_params op (p.query_params.getD []))
        (env.conn.validate_path_params op (p.path_params.getD []))
        (env.conn.validate_data op (p.data.getD []))
        (op_spec.method == HTTPMethod.POST || op_spec.method == HTTPMethod.PUT)]
    rw [show validation_entry "Invalid query_params provided"
            (env.conn.validate_query_params op (p.query_params.getD []))
          ++ validation_entry "Invalid path_params provided"
            (env.conn.validate_path_params op (p.path_params.getD []))
          ++ (if op_spec.method == HTTPMethod.POST || op_spec.method == HTTPMethod.PUT then
                validation_entry "Invalid data provided"
                  (env.conn.validate_data op (p.data.getD []))
              else [])
        = expected_validation_report env op p op_spec from rfl]
    by_cases he : expected_validation_report env op p op_spec = []
    · rw [he]
      rfl
    · cases hE : expected_validation_report env op p op_spec with
      | nil => exact absurd hE he
      | cons a l =>
          rw [if_neg (List.cons_ne_nil a l)]
          rfl
  · intro e st2 fuel g hv
    refine ⟨?_, ?_, ?_, ?_, ?_⟩
    · simp only [add_object, hv]
    · simp only [edit_object, hv]
    · simp only [delete_object, hv]
    · simp only [send_general_request, hv]
    · simp only [get_objects_by_filter, hv]

/-- C4 witness: failing and throwing validators on a POST operation in
dry-run mode yield `ValidationError` carrying all three labelled entries —
not the check-mode signal — and zero requests. -/
theorem c4_witness :
    add_object envV "addNetworkObject" paramsAddW 5 (initResource true)
      = (.error (.validation
          [("Invalid query_params provided", "bad query"),
           ("Invalid path_params provided", "path validator crashed"),
           ("Invalid data provided", "bad data")]),
         { config_changed := false,
           operation_spec_cache := [("addNetworkObject", some objectSpecAdd)],
           models_operations_specs_cache := [],
           check_mode := true },
         paramsAddW, []) :=
  ((c4_parameter_validation envV "addNetworkObject" paramsAddW (initResource true)
      _ objectSpecAdd rfl).2 _ _ 5 false rfl).1


theorem assocSetdefault_of_some {α : Type} (l : List (String × α)) (k : String)
    (v v0 : α) (h : assocGet l k = some v0) : assocSetdefault l k v = l := by
  unfold assocSetdefault
  rw [h]

theorem advance_offset_keys (qp qp2 : Obj)
    (hl : (assocGet qp "limit").isSome = true)
    (h : advance_offset qp = some qp2) :
    (assocGet qp2 "limit").isSome = true ∧ (assocGet qp2 "offset").isSome = true := by
  unfold advance_offset at h
  cases ho : assocGet qp "offset" with
  | none => rw [ho] at h; cases h
  | some o =>
      cases hli : assocGet qp "limit" with
      | none => rw [hli] at h; simp at h
      | some l =>
          rw [ho, hli] at h
          dsimp only at h
          cases hpo : pyInt o with
          | none => rw [hpo] at h; cases h
          | some oi =>
              cases hpl : pyInt l with
              | none => rw [hpo, hpl] at h; simp at h
              | some li =>
                  rw [hpo, hpl] at h
                  dsimp only at h
                  have hq : qp2 = assocSet qp "offset" (.vInt (oi + li)) :=
                    (Option.some.inj h).symm
                  subst hq
                  constructor
                  · exact isSome_assocGet_assocSet _ _ _ _ hl
                  · rw [assocGet_assocSet_self]
                    rfl

theorem iterate_pages_keys (f : Obj → Value) :
    ∀ (fuel : Nat) (qp : Obj) (tr : List (Obj × List Value)),
      (assocGet qp "limit").isSome = true → (assocGet qp "offset").isSome = true →
      iterate_pages f fuel qp = some tr →
      ∀ e ∈ tr, (assocGet e.1 "limit").isSome = true
        ∧ (assocGet e.1 "offset").isSome = true := by
  intro fuel
  induction fuel with
  | zero => intro qp tr _ _ h; cases h
  | succ n ih =>
      intro qp tr hl ho h
      unfold iterate_pages at h
      dsimp only at h
      cases hres : result_items (f qp) with
      | none => rw [hres] at h; cases h
      | some items =>
          rw [hres] at h
          dsimp only at h
          by_cases hie : items.isEmpty = true
          · rw [if_pos hie] at h
            have htr : tr = [(qp, items)] := (Option.some.inj h).symm
            subst htr
            intro e he
            rcases List.mem_singleton.mp he with rfl
            exact ⟨hl, ho⟩
          · rw [if_neg hie] at h
            cases hadv : advance_offset qp with
            | none => rw [hadv] at h; cases h
            | some qp2 =>
                rw [hadv] at h
                dsimp only at h
                cases hrec : iterate_pages f n qp2 with
                | none => rw [hrec] at h; cases h
                | some rest =>
                    rw [hrec] at h
                    dsimp only at h
                    have htr : tr = (qp, items) :: rest := (Option.some.inj h).symm
                    subst htr
                    intro e he
                    rcases List.mem_cons.mp he with he1 | he2
                    · subst he1
                      exact ⟨hl, ho⟩
                    · obtain ⟨hl2, ho2⟩ := advance_offset_keys qp qp2 hl hadv
                      exact ih qp2 rest hl2 ho2 hrec e he2

theorem iterate_entry_keys (qp : Obj) :
    (assocGet (assocSetdefault (assocSetdefault qp "limit" (.vInt DEFAULT_PAGE_SIZE))
        "offset" (.vInt DEFAULT_OFFSET)) "limit").isSome = true
    ∧ (assocGet (assocSetdefault (assocSetdefault qp "limit" (.vInt DEFAULT_PAGE_SIZE))
        "offset" (.vInt DEFAULT_OFFSET)) "offset").isSome = true := by
  constructor
  · have h1 := isSome_assocGet_assocSetdefault_self qp "limit" (Value.vInt DEFAULT_PAGE_SIZE)
    rw [assocGet_assocSetdefault_mono _ _ _ _ h1]
    exact h1
  · exact isSome_assocGet_assocSetdefault_self _ _ _

/-- C3: the pagination iterator defaults `limit` to 10 and `offset` to 0,
both overridable through the supplied query params and both included in
every fetch including the first; each non-empty page is yielded in order and
the offset advanced by the limit for the next fetch; the first empty page
terminates the iteration; and on the concrete 25-item server split 10/10/5
it yields exactly 25 items in order via 4 fetches at offsets 0, 10, 20, 30,
the last fetch returning the empty page that ends the sequence. -/
theorem c3_pagination_iterator :
    (∀ (f : Obj → Value) (fuel : Nat),
        iterate_over_pageable_resource f none fuel
          = iterate_pages f fuel [("limit", .vInt 10), ("offset", .vInt 0)])
    ∧ (∀ (f : Obj → Value) (fuel : Nat) (qp0 : Obj) (l o : Value),
        assocGet qp0 "limit" = some l → assocGet qp0 "offset" = some o →
        iterate_over_pageable_resource f (some qp0) fuel = iterate_pages f fuel qp0)
    ∧ (∀ (f : Obj → Value) (fuel : Nat) (qp : Obj),
        result_items (f qp) = some [] →
        iterate_pages f (fuel + 1) qp = some [(qp, [])])
    ∧ (∀ (f : Obj → Value) (fuel : Nat) (qp qp2 : Obj) (items : List Value),
        result_items (f qp) = some items → items ≠ [] →
        advance_offset qp = some qp2 →
        iterate_pages f (fuel + 1) qp
          = Option.map (fun rest => (qp, items) :: rest) (iterate_pages f fuel qp2)
        ∧ ∀ tr, yielded_items ((qp, items) :: tr) = items ++ yielded_items tr)
    ∧ (∀ (qp : Obj) (o l : Int),
        assocGet qp "offset" = some (.vInt o) → assocGet qp "limit" = some (.vInt l) →
        advance_offset qp = some (assocSet qp "offset" (.vInt (o + l))))
    ∧ (∀ (f : Obj → Value) (qp0 : Option Obj) (fuel : Nat)
        (tr : List (Obj × List Value)),
        iterate_over_pageable_resource f qp0 fuel = some tr →
        ∀ e ∈ tr, (assocGet e.1 "limit").isSome = true
          ∧ (assocGet e.1 "offset").isSome = true)
    ∧ (iterate_over_pageable_resource c3_fetch none 10 = some c3_trace
       ∧ c3_trace.length = 4
       ∧ c3_trace.map (fun e => assocGet e.1 "offset")
           = [some (.vInt 0), some (.vInt 10), some (.vInt 20), some (.vInt 30)]
       ∧ yielded_items c3_trace = (List.range 25).map (fun i => .vInt i)
       ∧ (c3_trace.map Prod.snd).getLast? = some []) := by
  refine ⟨fun f fuel => rfl, ?_, ?_, ?_, ?_, ?_, ?_⟩
  · intro f fuel qp0 l o hl ho
    unfold iterate_over_pageable_resource
    simp only [Option.getD_some]
    rw [assocSetdefault_of_some _ _ _ _ hl]
    rw [assocSetdefault_of_some _ _ _ _ ho]
  · intro f fuel qp h
    unfold iterate_pages
    dsimp only
    rw [h]
    rfl
  · intro f fuel qp qp2 items hres hne hadv
    constructor
    · have hie : items.isEmpty = false := by
        cases items
        · exact absurd rfl hne
        · rfl
      conv_lhs => unfold iterate_pages
      simp only [hres, hie, hadv, Bool.false_eq_true, if_false]
      cases iterate_pages f fuel qp2 <;> rfl
    · intro tr
      simp [yielded_items]
  · intro qp o l ho hl
    unfold advance_offset
    rw [ho, hl]
    rfl
  · intro f qp0 fuel tr h
    exact iterate_pages_keys f fuel _ tr (iterate_entry_keys (qp0.getD [])).1
      (iterate_entry_keys (qp0.getD [])).2 h
  · refine ⟨rfl, rfl, rfl, rfl, rfl⟩

/-- C3 witness: the empty-page termination step at a concrete resource
function. -/
theorem c3_witness :
    iterate_pages (fun _ => Value.vObj [("items", Value.vList [])]) 1 []
      = some [([], [])] :=
  c3_pagination_iterator.2.2.1 (fun _ => Value.vObj [("items", Value.vList [])]) 0 [] rfl


/-- C2: add reconciliation.  When the create request fails with an
`FtdServerError`, a non-422-duplicate-name failure propagates unchanged;
on a 422 duplicate-name failure the handler looks up the model FindAll
operation and (with the caller `filters` defaulting to the submitted
data name when absent) fetches the first matching existing object: no
FindAll operation or no match re-raises the original server error
unchanged, an `equal_objects`-equal match is returned as success, and a
differing match raises `FtdConfigurationError` carrying the existing
object. -/
theorem c2_add_duplicate_reconciliation (env : Env) (op : String) (p : Params)
    (fuel : Nat) (st st1 : ResourceState) (sp : OpSpec) (resp : Value) (code : Nat)
    (hv : validate_params env op p st = (.ok (), st1))
    (hcm : st.check_mode = false)
    (hsp : get_operation_spec env op st1 = (some sp, st1))
    (hfail : env.conn.send_request (create_request sp p)
      = { success := false, response := resp, status_code := code }) :
    (is_duplicate_name_error env resp code = false →
      add_object env op p fuel st
        = (.error (.server resp code), st1, p, [create_request sp p]))
    ∧ (is_duplicate_name_error env resp code = true →
       ∀ (d : Obj), p.data = some d →
       (∀ (st2 : ResourceState),
          _get_find_all_operation_name env sp.model_name st1 = (.ok none, st2) →
          add_object env op p fuel st
            = (.error (.server resp code), st2, p, [create_request sp p]))
       ∧ (∀ (find_op : String) (st2 : ResourceState) (nv : Value) (p1 : Params),
           _get_find_all_operation_name env sp.model_name st1
             = (.ok (some find_op), st2) →
           (p.filters = none → assocGet d "name" = some nv) →
           p1 = (if p.filters.isNone then { p with filters := some [("name", nv)] }
                 else p) →
           (∀ (st3 : ResourceState) (p2 : Params) (reqs2 : List Request),
              get_objects_by_filter env find_op p1 true fuel st2
                = (.ok (.one none), st3, p2, reqs2) →
              add_object env op p fuel st
                = (.error (.server resp code), st3, p2, create_request sp p :: reqs2))
           ∧ (∀ (ex : Value) (st3 : ResourceState) (p2 : Params) (reqs2 : List Request),
              get_objects_by_filter env find_op p1 true fuel st2
                = (.ok (.one (some ex)), st3, p2, reqs2) →
              (env.equal_objects ex (.vObj d) = true →
                 add_object env op p fuel st = (.ok ex, st3, p2, create_request sp p :: reqs2))
              ∧ (env.equal_objects ex (.vObj d) = false →
                 add_object env op p fuel st
                   = (.error (.config "Cannot add new object. An object with the same name but different parameters already exists." (some ex)),
                      st3, p2, create_request sp p :: reqs2))))) := by
  have hstop : stop_if_check_mode st1 = .ok () := by
    unfold stop_if_check_mode
    have h := validate_params_check_mode env op p st
    rw [hv] at h
    have h2 : st1.check_mode = st.check_mode := h
    rw [h2, hcm]
    rfl
  have hsend : _send_request env sp.url sp.method (some (p.data.getD []))
      (some (p.path_params.getD [])) (some (p.query_params.getD [])) st1
      = (.error (.server resp code), st1, [create_request sp p]) := by
    unfold _send_request
    unfold create_request at hfail
    simp only [hfail]
    rfl
  have hadd_dup : is_duplicate_name_error env resp code = true →
      ∀ (r : Except Err Value) (st4 : ResourceState) (p2 : Params) (reqs2 : List Request),
      _check_if_the_same_object env sp p resp code fuel st1 = (r, st4, p2, reqs2) →
      add_object env op p fuel st = (r, st4, p2, create_request sp p :: reqs2) := by
    intro hdup r st4 p2 reqs2 hcheck
    unfold add_object
    rw [hv]
    dsimp only
    rw [hstop]
    dsimp only [_get_user_params]
    rw [hsp]
    dsimp only
    rw [hsend]
    dsimp only
    rw [hdup]
    rw [hcheck]
    rfl
  constructor
  · intro hdup
    unfold add_object
    rw [hv]
    dsimp only
    rw [hstop]
    dsimp only [_get_user_params]
    rw [hsp]
    dsimp only
    rw [hsend]
    dsimp only
    rw [hdup]
    rfl
  · intro hdup d hd
    constructor
    · intro st2 hfind
      refine hadd_dup hdup _ _ _ _ ?_
      unfold _check_if_the_same_object
      rw [hfind]
    · intro find_op st2 nv p1 hfind hnv hp1
      have hsel : (if p.filters.isNone then
            match assocGet d "name" with
            | none => none
            | some name_value =>
              some { data := some d, query_params := p.query_params,
                     path_params := p.path_params, filters := some [("name", name_value)] }
          else some p) = some p1 := by
        by_cases hf : p.filters.isNone = true
        · have hfn : p.filters = none := Option.isNone_iff_eq_none.mp hf
          rw [if_pos hf, hnv hfn]
          dsimp only
          rw [hp1, if_pos hf, hd]
        · rw [if_neg hf, hp1, if_neg hf]
      have hcheck_pre : ∀ (r : Except Err Value) (st4 : ResourceState) (p2 : Params)
          (reqs2 : List Request),
          (match get_objects_by_filter env find_op p1 true fuel st2 with
           | (.error err, st5, p3, reqs3) => ((.error err : Except Err Value), st5, p3, reqs3)
           | (.ok (.many _), st5, p3, reqs3) => (.error (.py "unreachable"), st5, p3, reqs3)
           | (.ok (.one none), st5, p3, reqs3) => (.error (.server resp code), st5, p3, reqs3)
           | (.ok (.one (some existing_obj)), st5, p3, reqs3) =>
               if env.equal_objects existing_obj (.vObj d) then
                 (.ok existing_obj, st5, p3, reqs3)
               else
                 (.error (.config "Cannot add new object. An object with the same name but different parameters already exists." (some existing_obj)), st5, p3, reqs3))
            = (r, st4, p2, reqs2) →
          _check_if_the_same_object env sp p resp code fuel st1 = (r, st4, p2, reqs2) := by
        intro r st4 p2 reqs2 hm
        unfold _check_if_the_same_object
        rw [hfind]
        dsimp only
        rw [hd]
        dsimp only
        rw [hsel]
        dsimp only
        exact hm
      constructor
      · intro st3 p2 reqs2 hfetch
        refine hadd_dup hdup _ _ _ _ (hcheck_pre _ _ _ _ ?_)
        rw [hfetch]
      · intro ex st3 p2 reqs2 hfetch
        constructor
        · intro heq
          refine hadd_dup hdup _ _ _ _ (hcheck_pre _ _ _ _ ?_)
          rw [hfetch]
          dsimp only
          rw [heq]
          rfl
        · intro heq
          refine hadd_dup hdup _ _ _ _ (hcheck_pre _ _ _ _ ?_)
          rw [hfetch]
          dsimp only
          rw [heq]
          rfl

/-- C2 witness: the concrete add call collides with a duplicate name, the
FindAll lookup returns an equal existing object, and the handler returns it
as success after one create and one page request. -/
theorem c2_witness :
    add_object envW "addNetworkObject" paramsAddW 5 (initResource false)
      = (.ok existingNetObject,
         { config_changed := false,
           operation_spec_cache :=
             [("addNetworkObject", some objectSpecAdd),
              ("getNetworkObjectList", some objectSpecList)],
           models_operations_specs_cache :=
             [("NetworkObject", [("getNetworkObjectList", objectSpecList)])],
           check_mode := false },
         { data := some [("name", .vStr "x"), ("value", .vInt 1)],
           query_params := none,
           path_params := none,
           filters := some [("name", .vStr "x")] },
         [{ url_path := "/object", http_method := .POST,
            body_params := some [("name", .vStr "x"), ("value", .vInt 1)],
            path_params := some [], query_params := some [] },
          { url_path := "/object", http_method := .GET,
            body_params := none, path_params := some [],
            query_params := some [("filters", .vStr "name:x"),
              ("limit", .vInt 10), ("offset", .vInt 0)] }]) := by
  have h := c2_add_duplicate_reconciliation envW "addNetworkObject" paramsAddW 5
    (initResource false)
    { config_changed := false,
      operation_spec_cache := [("addNetworkObject", some objectSpecAdd)],
      models_operations_specs_cache := [], check_mode := false }
    objectSpecAdd (.vStr DUPLICATE_NAME_ERROR_MESSAGE) 422 rfl rfl rfl rfl
  have h2 := (h.2 rfl [("name", .vStr "x"), ("value", .vInt 1)] rfl).2
    "getNetworkObjectList"
    { config_changed := false,
      operation_spec_cache :=
        [("addNetworkObject", some objectSpecAdd),
         ("getNetworkObjectList", some objectSpecList)],
      models_operations_specs_cache :=
        [("NetworkObject", [("getNetworkObjectList", objectSpecList)])],
      check_mode := false }
    (.vStr "x")
    { data := some [("name", .vStr "x"), ("value", .vInt 1)],
      query_params := none, path_params := none,
      filters := some [("name", .vStr "x")] }
    (by rfl) (fun _ => rfl) rfl
  exact (h2.2 existingNetObject _ _ _ (by rfl)).1 (by rfl)


theorem get_objects_by_filter_filters (env : Env) (op : String) (p : Params) (g : Bool)
    (fuel : Nat) (st : ResourceState) :
    ((get_objects_by_filter env op p g fuel st).2.2.1).filters = p.filters := by
  unfold get_objects_by_filter
  rcases hv : validate_params env op p st with ⟨rv, st1⟩
  cases rv with
  | error e => rfl
  | ok u =>
      dsimp only
      cases hstop : stop_if_check_mode st1 with
      | error e => rfl
      | ok u2 =>
          dsimp only
          rcases hgs : get_operation_spec env op st1 with ⟨spec?, st2⟩
          cases spec? with
          | none => rfl
          | some op_spec =>
              dsimp only
              split
              · split <;> (split <;> rfl)
              · split <;> (split <;> rfl)

/-- C9: when the create request fails with a 422 duplicate-name error and the
caller supplied no `filters` key, the reconciliation inserts
`filters = (name, submitted data name)` into the caller params dictionary,
and this mutation is visible in the params the call hands back on every
outcome. -/
theorem c9_add_mutates_caller_params (env : Env) (op : String) (p : Params)
    (fuel : Nat) (st st1 st2 : ResourceState) (sp : OpSpec) (resp : Value) (code : Nat)
    (d : Obj) (nv : Value) (find_op : String)
    (hv : validate_params env op p st = (.ok (), st1))
    (hcm : st.check_mode = false)
    (hsp : get_operation_spec env op st1 = (some sp, st1))
    (hfail : env.conn.send_request (create_request sp p)
      = { success := false, response := resp, status_code := code })
    (hdup : is_duplicate_name_error env resp code = true)
    (hd : p.data = some d)
    (hnof : p.filters = none)
    (hname : assocGet d "name" = some nv)
    (hfind : _get_find_all_operation_name env sp.model_name st1
      = (.ok (some find_op), st2)) :
    ((add_object env op p fuel st).2.2.1).filters = some [("name", nv)] := by
  have hstop : stop_if_check_mode st1 = .ok () := by
    unfold stop_if_check_mode
    have h := validate_params_check_mode env op p st
    rw [hv] at h
    have h2 : st1.check_mode = st.check_mode := h
    rw [h2, hcm]
    rfl
  have hsend : _send_request env sp.url sp.method (some (p.data.getD []))
      (some (p.path_params.getD [])) (some (p.query_params.getD [])) st1
      = (.error (.server resp code), st1, [create_request sp p]) := by
    unfold _send_request
    unfold create_request at hfail
    simp only [hfail]
    rfl
  have hfnone : p.filters.isNone = true := by rw [hnof]; rfl
  have hcheck : ((_check_if_the_same_object env sp p resp code fuel st1).2.2.1).filters
      = some [("name", nv)] := by
    unfold _check_if_the_same_object
    rw [hfind]
    dsimp only
    rw [hd]
    dsimp only
    rw [if_pos hfnone, hname]
    dsimp only
    have hpres := get_objects_by_filter_filters env find_op
      { data := some d, query_params := p.query_params,
        path_params := p.path_params, filters := some [("name", nv)] } true fuel st2
    rcases hgbf : get_objects_by_filter env find_op
        { data := some d, query_params := p.query_params,
          path_params := p.path_params, filters := some [("name", nv)] } true fuel st2 with
      ⟨r, st3, p2, reqs⟩
    rw [hgbf] at hpres
    cases r with
    | error e => exact hpres
    | ok fr =>
        cases fr with
        | many items => exact hpres
        | one item =>
            cases item with
            | none => exact hpres
            | some ex =>
                dsimp only
                split <;> exact hpres
  unfold add_object
  rw [hv]
  dsimp only
  rw [hstop]
  dsimp only [_get_user_params]
  rw [hsp]
  dsimp only
  rw [hsend]
  dsimp only
  rw [hdup]
  exact hcheck

/-- C9 witness: the concrete duplicate-name add call returns params whose
`filters` key was inserted by the reconciliation. -/
theorem c9_witness :
    ((add_object envW "addNetworkObject" paramsAddW 5 (initResource false)).2.2.1).filters
      = some [("name", .vStr "x")] :=
  c9_add_mutates_caller_params envW "addNetworkObject" paramsAddW 5 (initResource false)
    { config_changed := false,
      operation_spec_cache := [("addNetworkObject", some objectSpecAdd)],
      models_operations_specs_cache := [], check_mode := false }
    { config_changed := false,
      operation_spec_cache :=
        [("addNetworkObject", some objectSpecAdd),
         ("getNetworkObjectList", some objectSpecList)],
      models_operations_specs_cache :=
        [("NetworkObject", [("getNetworkObjectList", objectSpecList)])],
      check_mode := false }
    objectSpecAdd (.vStr DUPLICATE_NAME_ERROR_MESSAGE) 422
    [("name", .vStr "x"), ("value", .vInt 1)] (.vStr "x") "getNetworkObjectList"
    rfl rfl rfl rfl (by rfl) rfl rfl rfl (by rfl)


/-- C5: edit first fetches the current object with a GET at the same url and
path parameters; a falsy (empty) fetch result raises
`FtdConfigurationError` with message "Referenced object does not exist"; an
`equal_objects`-equal result is returned with no write request sent; and a
differing result causes the edit request to be sent with body, path and
query parameters, its outcome returned. -/
theorem c5_edit_fetch_compare_write (env : Env) (op : String) (p : Params)
    (st st1 : ResourceState) (sp : OpSpec) (fetched : Value) (c : Nat)
    (hv : validate_params env op p st = (.ok (), st1))
    (hcm : st.check_mode = false)
    (hsp : get_operation_spec env op st1 = (some sp, st1))
    (hget : env.conn.send_request (edit_fetch_request sp p)
      = { success := true, response := fetched, status_code := c }) :
    (pyTruthy fetched = false →
      edit_object env op p st
        = (.error (.config "Referenced object does not exist" none), st1, p,
           [edit_fetch_request sp p]))
    ∧ (pyTruthy fetched = true →
       env.equal_objects fetched (.vObj (p.data.getD [])) = true →
       edit_object env op p st = (.ok fetched, st1, p, [edit_fetch_request sp p]))
    ∧ (pyTruthy fetched = true →
       env.equal_objects fetched (.vObj (p.data.getD [])) = false →
       ∀ (r2 : Except Err Value) (st4 : ResourceState) (reqs2 : List Request),
       _send_request env sp.url sp.method (some (p.data.getD []))
           (some (p.path_params.getD [])) (some (p.query_params.getD [])) st1
         = (r2, st4, reqs2) →
       edit_object env op p st = (r2, st4, p, edit_fetch_request sp p :: reqs2)) := by
  have hstop : stop_if_check_mode st1 = .ok () := by
    unfold stop_if_check_mode
    have h := validate_params_check_mode env op p st
    rw [hv] at h
    have h2 : st1.check_mode = st.check_mode := h
    rw [h2, hcm]
    rfl
  have hfetch : _send_request env sp.url HTTPMethod.GET none
      (some (p.path_params.getD [])) none st1
      = (.ok fetched, st1, [edit_fetch_request sp p]) := by
    unfold _send_request
    unfold edit_fetch_request at hget
    simp only [hget]
    rfl
  refine ⟨?_, ?_, ?_⟩
  · intro hfal
    unfold edit_object
    rw [hv]
    dsimp only
    rw [hstop]
    dsimp only [_get_user_params]
    rw [hsp]
    dsimp only
    rw [hfetch]
    dsimp only
    rw [hfal]
    rfl
  · intro htr heq
    unfold edit_object
    rw [hv]
    dsimp only
    rw [hstop]
    dsimp only [_get_user_params]
    rw [hsp]
    dsimp only
    rw [hfetch]
    dsimp only
    simp only [htr, Bool.not_true, Bool.false_eq_true, if_false]
    rw [heq]
    rfl
  · intro htr heq r2 st4 reqs2 hw
    unfold edit_object
    rw [hv]
    dsimp only
    rw [hstop]
    dsimp only [_get_user_params]
    rw [hsp]
    dsimp only
    rw [hfetch]
    dsimp only
    simp only [htr, heq, Bool.not_true, Bool.false_eq_true, if_false]
    rw [hw]
    rfl

/-- C5 witness: the concrete edit call fetches an object equal to the
submitted data and returns it with only the GET probe sent. -/
theorem c5_witness :
    edit_object envW "editNetworkObject" paramsEditW (initResource false)
      = (.ok existingNetObject,
         { config_changed := false,
           operation_spec_cache := [("editNetworkObject", some objectSpecEdit)],
           models_operations_specs_cache := [], check_mode := false },
         paramsEditW,
         [{ url_path := "/object/id1", http_method := .GET, body_params := none,
            path_params := some [("objId", .vStr "id1")], query_params := none }]) :=
  ((c5_edit_fetch_compare_write envW "editNetworkObject" paramsEditW
      (initResource false)
      { config_changed := false,
        operation_spec_cache := [("editNetworkObject", some objectSpecEdit)],
        models_operations_specs_cache := [], check_mode := false }
      objectSpecEdit existingNetObject 200 rfl rfl rfl rfl).2.1) rfl (by rfl)

/-- C6: a delete whose request fails with a 422 invalid-UUID
`FtdServerError` swallows the error and returns the synthetic status dict;
any other failure propagates unchanged; a success returns the response
body. -/
theorem c6_delete_tolerance (env : Env) (op : String) (p : Params)
    (st st1 : ResourceState) (sp : OpSpec) (resp b : Value) (code c : Nat)
    (hv : validate_params env op p st = (.ok (), st1))
    (hcm : st.check_mode = false)
    (hsp : get_operation_spec env op st1 = (some sp, st1)) :
    (env.conn.send_request (delete_request sp p)
        = { success := false, response := resp, status_code := code } →
      (is_invalid_uuid_error env resp code = true →
        delete_object env op p st
          = (.ok (.vObj [("status", .vStr "Referenced object does not exist")]),
             st1, p, [delete_request sp p]))
      ∧ (is_invalid_uuid_error env resp code = false →
        delete_object env op p st
          = (.error (.server resp code), st1, p, [delete_request sp p])))
    ∧ (env.conn.send_request (delete_request sp p)
        = { success := true, response := b, status_code := c } →
      delete_object env op p st
        = (.ok b,
           (if sp.method == HTTPMethod.GET then st1
            else { st1 with config_changed := true }),
           p, [delete_request sp p])) := by
  have hstop : stop_if_check_mode st1 = .ok () := by
    unfold stop_if_check_mode
    have h := validate_params_check_mode env op p st
    rw [hv] at h
    have h2 : st1.check_mode = st.check_mode := h
    rw [h2, hcm]
    rfl
  constructor
  · intro henv
    have hsend : _send_request env sp.url sp.method none
        (some (p.path_params.getD [])) none st1
        = (.error (.server resp code), st1, [delete_request sp p]) := by
      unfold _send_request
      unfold delete_request at henv
      simp only [henv]
      rfl
    constructor
    · intro huuid
      unfold delete_object
      rw [hv]
      dsimp only
      rw [hstop]
      dsimp only [_get_user_params]
      rw [hsp]
      dsimp only
      rw [hsend]
      simp only [huuid]
      rfl
    · intro huuid
      unfold delete_object
      rw [hv]
      dsimp only
      rw [hstop]
      dsimp only [_get_user_params]
      rw [hsp]
      dsimp only
      rw [hsend]
      simp only [huuid]
      rfl
  · intro henv
    have hsend : _send_request env sp.url sp.method none
        (some (p.path_params.getD [])) none st1
        = (.ok b,
           (if sp.method == HTTPMethod.GET then st1
            else { st1 with config_changed := true }),
           [delete_request sp p]) := by
      unfold _send_request
      unfold delete_request at henv
      simp only [henv]
      rfl
    unfold delete_object
    rw [hv]
    dsimp only
    rw [hstop]
    dsimp only [_get_user_params]
    rw [hsp]
    dsimp only
    rw [hsend]

/-- C6 witness: the concrete delete call fails with the 422 invalid-UUID
message and the handler returns the synthetic status dict. -/
theorem c6_witness :
    delete_object envW "deleteNetworkObject" paramsDeleteW (initResource false)
      = (.ok (.vObj [("status", .vStr "Referenced object does not exist")]),
         { config_changed := false,
           operation_spec_cache := [("deleteNetworkObject", some objectSpecDel)],
           models_operations_specs_cache := [], check_mode := false },
         paramsDeleteW,
         [delete_request objectSpecDel paramsDeleteW]) :=
  (((c6_delete_tolerance envW "deleteNetworkObject" paramsDeleteW
      (initResource false)
      { config_changed := false,
        operation_spec_cache := [("deleteNetworkObject", some objectSpecDel)],
        models_operations_specs_cache := [], check_mode := false }
      objectSpecDel (.vStr INVALID_UUID_ERROR_MESSAGE) .vNone 422 0
      rfl rfl rfl).1 rfl).1) (by rfl)

/-- C10: the dispatched delete request carries only url, method and path
parameters — the caller-supplied `data` body and `query_params` are dropped
and never transmitted — while `send_general_request` and `add_object`
forward them (the edit write request likewise, see the write branch of the
edit theorem). -/
theorem c10_delete_drops_body_and_query (env : Env) (op : String) (p : Params)
    (st st1 : ResourceState) (sp : OpSpec)
    (hv : validate_params env op p st = (.ok (), st1))
    (hcm : st.check_mode = false)
    (hsp : get_operation_spec env op st1 = (some sp, st1)) :
    (delete_object env op p st).2.2.2 = [delete_request sp p]
    ∧ (delete_request sp p).body_params = none
    ∧ (delete_request sp p).query_params = none
    ∧ (∀ (r3 : Except Err Value) (st3 : ResourceState) (p3 : Params)
        (reqs3 : List Request),
        send_general_request env op p st = (r3, st3, p3, reqs3) →
        reqs3 = [create_request sp p])
    ∧ (∀ fuel : Nat,
        ((add_object env op p fuel st).2.2.2).head? = some (create_request sp p)) := by
  have hstop : stop_if_check_mode st1 = .ok () := by
    unfold stop_if_check_mode
    have h := validate_params_check_mode env op p st
    rw [hv] at h
    have h2 : st1.check_mode = st.check_mode := h
    rw [h2, hcm]
    rfl
  have hsendD : (_send_request env sp.url sp.method none
      (some (p.path_params.getD [])) none st1).2.2 = [delete_request sp p] := by
    unfold _send_request delete_request
    dsimp only
    split <;> rfl
  have hsendG : (_send_request env sp.url sp.method (some (p.data.getD []))
      (some (p.path_params.getD [])) (some (p.query_params.getD [])) st1).2.2
      = [create_request sp p] := by
    unfold _send_request create_request
    dsimp only
    split <;> rfl
  refine ⟨?_, rfl, rfl, ?_, ?_⟩
  · unfold delete_object
    rw [hv]
    dsimp only
    rw [hstop]
    dsimp only [_get_user_params]
    rw [hsp]
    dsimp only
    rcases hs : _send_request env sp.url sp.method none
        (some (p.path_params.getD [])) none st1 with ⟨r, st3, reqs⟩
    rw [hs] at hsendD
    cases r with
    | ok v => exact hsendD
    | error e =>
        cases e
        case server resp2 code2 =>
          dsimp only
          split <;> exact hsendD
        all_goals exact hsendD
  · intro r3 st3 p3 reqs3 hgen
    unfold send_general_request at hgen
    rw [hv] at hgen
    dsimp only at hgen
    rw [hstop] at hgen
    dsimp only [_get_user_params] at hgen
    rw [hsp] at hgen
    dsimp only at hgen
    rcases hs : _send_request env sp.url sp.method (some (p.data.getD []))
        (some (p.path_params.getD [])) (some (p.query_params.getD [])) st1 with
      ⟨r, st4, reqs⟩
    rw [hs] at hsendG
    rw [hs] at hgen
    have h4 : reqs = reqs3 := congrArg (fun q => q.2.2.2) hgen
    rw [← h4]
    exact hsendG
  · intro fuel
    unfold add_object
    rw [hv]
    dsimp only
    rw [hstop]
    dsimp only [_get_user_params]
    rw [hsp]
    dsimp only
    rcases hs : _send_request env sp.url sp.method (some (p.data.getD []))
        (some (p.path_params.getD [])) (some (p.query_params.getD [])) st1 with
      ⟨r, st4, reqs⟩
    rw [hs] at hsendG
    have h5 : reqs = [create_request sp p] := hsendG
    subst h5
    cases r with
    | ok v => rfl
    | error e =>
        cases e
        case server resp2 code2 =>
          dsimp only
          split <;> rfl
        all_goals rfl

/-- C10 witness: the concrete delete call, whose caller params carry a body
and query params, dispatches exactly one request with no body and no query
parameters. -/
theorem c10_witness :
    (delete_object envW "deleteNetworkObject" paramsDeleteW (initResource false)).2.2.2
      = [delete_request objectSpecDel paramsDeleteW] :=
  (c10_delete_drops_body_and_query envW "deleteNetworkObject" paramsDeleteW
      (initResource false)
      { config_changed := false,
        operation_spec_cache := [("deleteNetworkObject", some objectSpecDel)],
        models_operations_specs_cache := [], check_mode := false }
      objectSpecDel rfl rfl rfl).1

end FTD
